import Mathlib

/-!
# MDFourier: command line parsing (`src/cline.c`)

A shallow embedding of `CleanParameters` and `commandline` from `src/cline.c`,
together with the properties of the resulting configuration.

Conventions of the embedding

* C strings are lists of characters; `optarg[0]` of an empty string is the
  terminating NUL character.
* `double` values are modelled by `CDouble`: a NaN, the two infinities and the
  finite values (rationals).  Comparisons follow IEEE 754: every ordered
  comparison with a NaN is false.
* `int` values are modelled by `Int`.
* The header `mdfourier.h` with the numeric macros (`START_HZ`, `END_HZ`, ...)
  is not part of the sources at hand; the macros are fields of `Constants`.
* The C library (`getopt`, `atof`, `atoi`, `fopen`, `log10`) is outside of the
  repository.  `getopt` is modelled explicitly (`getoptAll`), the others are
  fields of `Libc`.
* `logmsg` only prints and is left out, and so is the state of the logger
  (`EnableLog`).
-/

namespace MDFourier

/-! ## Doubles -/

/-- A C `double`: NaN, minus infinity, a finite value, plus infinity. -/
inductive CDouble where
  | nan : CDouble
  | negInf : CDouble
  | fin (q : ℚ) : CDouble
  | posInf : CDouble
  deriving DecidableEq

namespace CDouble

/-- The C comparison `a < b` on doubles. -/
def lt : CDouble → CDouble → Bool
  | nan, _ => false
  | _, nan => false
  | negInf, negInf => false
  | negInf, _ => true
  | fin _, negInf => false
  | fin a, fin b => decide (a < b)
  | fin _, posInf => true
  | posInf, _ => false

/-- The C comparison `a <= b` on doubles. -/
def le : CDouble → CDouble → Bool
  | nan, _ => false
  | _, nan => false
  | negInf, _ => true
  | fin _, negInf => false
  | fin a, fin b => decide (a ≤ b)
  | fin _, posInf => true
  | posInf, posInf => true
  | posInf, _ => false

/-- The C comparison `a > b` on doubles. -/
def gt (a b : CDouble) : Bool := lt b a

/-- The C comparison `a >= b` on doubles. -/
def ge (a b : CDouble) : Bool := le b a

/-- The C comparison `a == b` on doubles. -/
def eq : CDouble → CDouble → Bool
  | nan, _ => false
  | _, nan => false
  | negInf, negInf => true
  | fin a, fin b => decide (a = b)
  | posInf, posInf => true
  | _, _ => false

/-- The value is a NaN. -/
def isNaN : CDouble → Bool
  | nan => true
  | _ => false

end CDouble

/-- Conversion of a finite double to `int` (truncation toward zero). -/
def truncToInt (q : ℚ) : Int :=
  if 0 ≤ q then Int.floor q else Int.ceil q

/-! ## Constants of `mdfourier.h` and the C library -/

/-- The macros of `mdfourier.h` and `plot.h` that `cline.c` uses. The
floating point macros are finite values. -/
structure Constants where
  PROFILE_FILE : List Char
  START_HZ : ℚ
  END_HZ : ℚ
  START_HZ_PLOT : ℚ
  MAX_HZ : ℚ
  DB_HEIGHT : ℚ
  SIGNIFICANT_VOLUME : ℚ
  BAR_DIFF_DB_TOLERANCE : ℚ
  FREQ_COUNT : Int
  MAX_FREQ_COUNT : Int
  MAX_SYNC : Int
  PLOT_RES_X : Int
  PLOT_RES_Y : Int
  PLOT_RES_X_LOW : Int
  PLOT_RES_Y_LOW : Int
  PLOT_RES_X_1K : Int
  PLOT_RES_Y_1K : Int
  PLOT_RES_X_HI : Int
  PLOT_RES_Y_HI : Int
  PLOT_RES_X_4K : Int
  PLOT_RES_Y_4K : Int
  PLOT_RES_X_FP : Int
  PLOT_RES_Y_FP : Int

/-- The C library and the file system as seen by `commandline`. -/
structure Libc where
  /-- Result of `atof`. -/
  atof : List Char → CDouble
  /-- Result of `atoi`. -/
  atoi : List Char → Int
  /-- Whether `fopen(name, "rb")` succeeds. -/
  fopen : List Char → Bool
  /-- The value of `x/log10(x)`. -/
  divLog10 : CDouble → CDouble
  /-- Whether `getopt` stops at the first non-option argument (POSIX), or
  skips non-option arguments and moves them to the end (GNU). -/
  posixlyCorrect : Bool

/-! ## The configuration -/

/-- The `enum normalize` of `mdfourier.h`. -/
inductive Normalize where
  | max_time : Normalize
  | max_frequency : Normalize
  | average : Normalize
  | none : Normalize
  deriving DecidableEq

/-- The members of `parameters` that `commandline` reads or writes. The
members that only `CleanParameters` initialises (counters, pointers, block
type tables, clock data) are left out. -/
structure parameters where
  profileFile : List Char
  referenceFile : List Char
  comparisonFile : List Char
  startHz : CDouble
  endHz : CDouble
  startHzPlot : CDouble
  endHzPlot : CDouble
  maxDbPlotZC : CDouble
  extendedResults : Int
  justResults : Int
  verbose : Int
  window : Char
  channel : Char
  MaxFreq : Int
  clock : Int
  showAll : Int
  ignoreFloor : Int
  useOutputFilter : Int
  outputFilterFunction : Int
  origSignificantAmplitude : CDouble
  significantAmplitude : CDouble
  ZeroPad : Int
  debugSync : Int
  channelBalance : Int
  showPercent : Int
  ignoreFrameRateDiff : Int
  outputCSV : Int
  whiteBG : Int
  videoFormatRef : Int
  videoFormatCom : Int
  syncTolerance : Int
  AmpBarRange : CDouble
  FullTimeSpectroScale : Int
  logScale : Int
  reverseCompare : Int
  normType : Normalize
  plotResX : Int
  plotResY : Int
  plotRatio : CDouble
  plotDifferences : Int
  plotMissing : Int
  plotSpectrogram : Int
  plotTimeSpectrogram : Int
  plotNoiseFloor : Int
  plotTimeDomain : Int
  plotPhase : Int
  plotAllNotes : Int
  plotAllNotesWindowed : Int
  plotTimeDomainHiDiff : Int
  averagePlot : Int
  weightedAveragePlot : Int
  useExtraData : Int
  quantizeRound : Int
  drawPerfect : Int

/-- `CleanParameters`: every member is overwritten, so the result does not
depend on the previous contents of `*config`. -/
def CleanParameters (K : Constants) (_config : parameters) : parameters :=
  { profileFile := K.PROFILE_FILE
    referenceFile := []
    comparisonFile := []
    startHz := .fin K.START_HZ
    endHz := .fin K.END_HZ
    startHzPlot := .fin K.START_HZ_PLOT
    endHzPlot := .fin K.END_HZ
    maxDbPlotZC := .fin K.DB_HEIGHT
    extendedResults := 0
    justResults := 0
    verbose := 0
    window := 't'
    channel := 's'
    MaxFreq := K.FREQ_COUNT
    clock := 0
    showAll := 0
    ignoreFloor := 0
    useOutputFilter := 1
    outputFilterFunction := 3
    origSignificantAmplitude := .fin K.SIGNIFICANT_VOLUME
    significantAmplitude := .fin K.SIGNIFICANT_VOLUME
    ZeroPad := 0
    debugSync := 0
    channelBalance := 1
    showPercent := 1
    ignoreFrameRateDiff := 0
    outputCSV := 0
    whiteBG := 0
    videoFormatRef := 0
    videoFormatCom := 0
    syncTolerance := 0
    AmpBarRange := .fin K.BAR_DIFF_DB_TOLERANCE
    FullTimeSpectroScale := 0
    logScale := 1
    reverseCompare := 0
    normType := .max_frequency
    plotResX := K.PLOT_RES_X
    plotResY := K.PLOT_RES_Y
    plotRatio := .fin 0
    plotDifferences := 1
    plotMissing := 1
    plotSpectrogram := 1
    plotTimeSpectrogram := 1
    plotNoiseFloor := 1
    plotTimeDomain := 1
    plotPhase := 0
    plotAllNotes := 0
    plotAllNotesWindowed := 0
    plotTimeDomainHiDiff := 0
    averagePlot := 0
    weightedAveragePlot := 1
    useExtraData := 1
    quantizeRound := 1
    drawPerfect := 0 }

/-! ## `getopt` -/

/-- The option string passed to `getopt` by `commandline`. -/
def optstring : List Char :=
  "Aa:Bb:Cc:Dd:Ee:Ff:gHhIijKkL:lMmNn:Oo:P:p:QqRr:Ss:TtUuVvWw:XxY:yZ:z".toList

/-- Search of an option character in the option string: `none` when it is
not an option, otherwise whether the option takes an argument. -/
def optLookupAux : List Char → Char → Option Bool
  | [], _ => none
  | o :: os, c => if o = c then some (os.head? = some ':') else optLookupAux os c

/-- As `optLookupAux`, the colon itself never being an option. -/
def optLookup (c : Char) : Option Bool :=
  if c = ':' then none else optLookupAux optstring c

/-- One return of `getopt`. -/
inductive GetoptItem where
  /-- An option of the option string, with `optarg` (empty for a flag). -/
  | opt (c : Char) (optarg : List Char) : GetoptItem
  /-- The return `'?'`, with `optopt`: an unknown option character or a
  missing argument. -/
  | bad (optopt : Char) : GetoptItem
  deriving DecidableEq

/-- The returns of `getopt` for the characters after the dash of one
argument, and the option left waiting for its argument in the next element
of `argv`, if any. -/
def scanCluster : List Char → List GetoptItem × Option Char
  | [] => ([], none)
  | c :: cs =>
    match optLookup c with
    | none => (.bad c :: (scanCluster cs).1, (scanCluster cs).2)
    | some false => (.opt c [] :: (scanCluster cs).1, (scanCluster cs).2)
    | some true =>
      match cs with
      | [] => ([], some c)
      | _ :: _ => ([.opt c cs], none)

/-- An element of `argv` that is not an option: it does not start with a
dash, or it is the dash alone. -/
def isNonOption : List Char → Bool
  | [] => true
  | c :: cs => c != '-' || cs.isEmpty

/-- The returns of the successive calls of `getopt` until it returns -1, and
whether `optind < argc` then. The first argument is the option that waits
for its argument, the second the elements of `argv` not yet scanned. -/
def getoptFrom (posix : Bool) : Option Char → List (List Char) → List GetoptItem × Bool
  | none, [] => ([], false)
  | some c, [] => ([.bad c], false)
  | some c, a :: rest =>
    (.opt c a :: (getoptFrom posix none rest).1, (getoptFrom posix none rest).2)
  | none, a :: rest =>
    if a = ['-', '-'] then ([], !rest.isEmpty)
    else if isNonOption a then
      (if posix then ([], true) else ((getoptFrom posix none rest).1, true))
    else
      ((scanCluster a.tail).1 ++ (getoptFrom posix (scanCluster a.tail).2 rest).1,
        (getoptFrom posix (scanCluster a.tail).2 rest).2)

/-- All returns of `getopt` on `argv` (scanning starts at `argv[1]`), and
whether `optind < argc` at the end. -/
def getoptAll (posix : Bool) (argv : List (List Char)) : List GetoptItem × Bool :=
  getoptFrom posix none argv.tail

/-! ## `commandline` -/

/-- The configuration and the locals `ref` and `tar` of `commandline`. -/
structure State where
  config : parameters
  ref : Int
  tar : Int

/-- Outcome of one pass through the `switch` of `commandline`. -/
inductive SwitchResult where
  /-- The case ended with `break`: the loop goes on. -/
  | brk (s : State) : SwitchResult
  /-- The case ended with `return 0`. -/
  | ret0 (s : State) : SwitchResult

/-- The character `optarg[0]`. -/
def firstChar (optarg : List Char) : Char := optarg.headD (Char.ofNat 0)

/-- The body of the `switch (c)` of `commandline` for one return `c` of
`getopt`. -/
def commandlineSwitch (K : Constants) (L : Libc) (c : Char) (optarg : List Char)
    (s : State) : SwitchResult :=
  let config := s.config
  match c with
  | 'A' => .brk { s with config := { config with averagePlot := 1, weightedAveragePlot := 0 } }
  | 'a' =>
    if firstChar optarg = 'l' ∨ firstChar optarg = 'r' ∨ firstChar optarg = 's' then
      .brk { s with config := { config with channel := firstChar optarg } }
    else .ret0 s
  | 'B' => .brk { s with config := { config with channelBalance := 0 } }
  | 'b' =>
    let config := { config with AmpBarRange := L.atof optarg }
    if config.AmpBarRange.lt (.fin 0) || config.AmpBarRange.gt (.fin 16) then
      .brk { s with config := { config with AmpBarRange := .fin K.BAR_DIFF_DB_TOLERANCE } }
    else .brk { s with config := config }
  | 'C' => .brk { s with config := { config with outputCSV := 1 } }
  | 'c' => .brk { s with config := { config with comparisonFile := optarg }, tar := 1 }
  | 'D' => .brk { s with config := { config with plotDifferences := 0 } }
  | 'd' =>
    let config := { config with maxDbPlotZC := L.atof optarg }
    if config.maxDbPlotZC.lt (.fin 0) || config.maxDbPlotZC.gt (.fin 120) then
      .brk { s with config := { config with maxDbPlotZC := .fin K.DB_HEIGHT } }
    else .brk { s with config := config }
  | 'E' => .brk { s with config := { config with FullTimeSpectroScale := 1 } }
  | 'e' =>
    let config := { config with endHz := L.atof optarg }
    let config :=
      if config.endHz.lt (.fin (K.START_HZ * 2)) then { config with endHz := .fin K.END_HZ }
      else config
    let config :=
      if config.endHz.gt (.fin K.MAX_HZ) then { config with endHz := .fin K.MAX_HZ }
      else config
    let config :=
      if config.endHz.gt (.fin K.END_HZ) then { config with endHzPlot := config.endHz }
      else config
    .brk { s with config := config }
  | 'F' => .brk { s with config := { config with plotNoiseFloor := 0 } }
  | 'f' =>
    let config := { config with MaxFreq := L.atoi optarg }
    if config.MaxFreq < 1 ∨ config.MaxFreq > K.MAX_FREQ_COUNT then
      .brk { s with config := { config with MaxFreq := K.MAX_FREQ_COUNT } }
    else .brk { s with config := config }
  | 'g' => .brk { s with config := { config with averagePlot := 1 } }
  | 'H' => .brk { s with config := { config with plotTimeDomainHiDiff := 1 } }
  | 'h' => .ret0 s
  | 'I' => .brk { s with config := { config with ignoreFrameRateDiff := 1 } }
  | 'i' => .brk { s with config := { config with ignoreFloor := 1 } }
  | 'j' => .brk { s with config := { config with justResults := 1 } }
  | 'K' => .brk { s with config := { config with drawPerfect := 1 } }
  | 'k' => .brk { s with config := { config with clock := 1 } }
  | 'L' =>
    if L.atoi optarg = 1 then
      .brk { s with config := { config with
        plotResX := K.PLOT_RES_X_LOW, plotResY := K.PLOT_RES_Y_LOW, showPercent := 0 } }
    else if L.atoi optarg = 2 then
      .brk { s with config := { config with plotResX := K.PLOT_RES_X, plotResY := K.PLOT_RES_Y } }
    else if L.atoi optarg = 3 then
      .brk { s with config := { config with
        plotResX := K.PLOT_RES_X_1K, plotResY := K.PLOT_RES_Y_1K } }
    else if L.atoi optarg = 4 then
      .brk { s with config := { config with
        plotResX := K.PLOT_RES_X_HI, plotResY := K.PLOT_RES_Y_HI } }
    else if L.atoi optarg = 5 then
      .brk { s with config := { config with
        plotResX := K.PLOT_RES_X_4K, plotResY := K.PLOT_RES_Y_4K } }
    else if L.atoi optarg = 6 then
      .brk { s with config := { config with
        plotResX := K.PLOT_RES_X_FP, plotResY := K.PLOT_RES_Y_FP } }
    else .brk s
  -- `EnableLog()` changes the state of the logger only
  | 'l' => .brk s
  | 'M' => .brk { s with config := { config with plotMissing := 0 } }
  | 'm' => .brk { s with config := { config with showAll := 1 } }
  | 'N' => .brk { s with config := { config with logScale := 0 } }
  | 'n' =>
    if firstChar optarg = 't' then
      .brk { s with config := { config with normType := .max_time } }
    else if firstChar optarg = 'f' then
      .brk { s with config := { config with normType := .max_frequency } }
    else if firstChar optarg = 'a' then
      .brk { s with config := { config with normType := .average } }
    else if firstChar optarg = 'n' then
      .brk { s with config := { config with normType := .none } }
    else .ret0 s
  | 'O' => .brk { s with config := { config with plotPhase := 1 } }
  | 'o' =>
    let config := { config with outputFilterFunction := L.atoi optarg }
    let config :=
      if config.outputFilterFunction < 0 ∨ config.outputFilterFunction > 5 then
        { config with outputFilterFunction := 3 }
      else config
    let config :=
      if config.outputFilterFunction = 0 then { config with useOutputFilter := 0 }
      else config
    .brk { s with config := config }
  | 'P' => .brk { s with config := { config with profileFile := optarg } }
  | 'p' =>
    let config := { config with significantAmplitude := L.atof optarg }
    let config :=
      if config.significantAmplitude.le (.fin (-120))
          || config.significantAmplitude.ge (.fin (-1)) then
        { config with significantAmplitude := .fin K.SIGNIFICANT_VOLUME }
      else config
    .brk { s with config :=
      { config with origSignificantAmplitude := config.significantAmplitude } }
  | 'Q' => .brk { s with config := { config with plotTimeDomain := 0 } }
  | 'q' => .brk { s with config := { config with quantizeRound := 0 } }
  | 'R' => .brk { s with config := { config with reverseCompare := 1 } }
  | 'r' => .brk { s with config := { config with referenceFile := optarg }, ref := 1 }
  | 'S' => .brk { s with config := { config with plotSpectrogram := 0 } }
  | 's' =>
    let config := { config with startHz := L.atof optarg }
    if config.startHz.lt (.fin 1) || config.startHz.gt (.fin (K.END_HZ - 100)) then
      .brk { s with config := { config with startHz := .fin K.START_HZ } }
    else .brk { s with config := config }
  | 'T' => .brk { s with config := { config with syncTolerance := 1 } }
  | 't' => .brk { s with config := { config with plotTimeSpectrogram := 0 } }
  | 'U' => .brk { s with config := { config with plotAllNotes := 1, plotAllNotesWindowed := 1 } }
  | 'u' => .brk { s with config := { config with plotAllNotes := 1 } }
  | 'V' => .brk s
  | 'v' => .brk { s with config := { config with verbose := 1 } }
  | 'W' => .brk { s with config := { config with whiteBG := 1 } }
  | 'w' =>
    if firstChar optarg = 'n' ∨ firstChar optarg = 'f' ∨ firstChar optarg = 'h'
        ∨ firstChar optarg = 't' ∨ firstChar optarg = 'm' then
      .brk { s with config := { config with window := firstChar optarg } }
    else .ret0 s
  | 'X' => .brk { s with config := { config with useExtraData := 0 } }
  | 'x' => .brk { s with config := { config with extendedResults := 1 } }
  | 'Y' =>
    let config := { config with videoFormatRef := L.atoi optarg }
    if config.videoFormatRef < 0 ∨ config.videoFormatRef > K.MAX_SYNC then
      .ret0 { s with config := config }
    else .brk { s with config := config }
  | 'y' => .brk { s with config := { config with debugSync := 1 } }
  | 'Z' =>
    let config := { config with videoFormatCom := L.atoi optarg }
    if config.videoFormatRef < 0 ∨ config.videoFormatRef > K.MAX_SYNC then
      .ret0 { s with config := config }
    else .brk { s with config := config }
  | 'z' => .brk { s with config := { config with ZeroPad := 1 } }
  | '?' => .ret0 s
  | _ => .ret0 s

/-- The return `c` of `getopt` and the value of `optarg` for one item. -/
def GetoptItem.code : GetoptItem → Char × List Char
  | .opt c optarg => (c, optarg)
  | .bad _ => ('?', [])

/-- The `while ((c = getopt (...)) != -1) switch (c)` loop over the returns
of `getopt`. -/
def commandlineLoop (K : Constants) (L : Libc) : List GetoptItem → State → SwitchResult
  | [], s => .brk s
  | it :: items, s =>
    match commandlineSwitch K L it.code.1 it.code.2 s with
    | .brk s1 => commandlineLoop K L items s1
    | .ret0 s1 => .ret0 s1

/-- The end of `commandline`, from the check of the frequency range on:
the return value and the final configuration. -/
def commandlineRangeAndFiles (L : Libc) (config : parameters) : Int × parameters :=
  if config.endHz.le config.startHz then (0, config)
  else if config.plotDifferences = 0 ∧ config.plotMissing = 0 ∧
      config.plotSpectrogram = 0 ∧ config.averagePlot = 0 ∧
      config.plotNoiseFloor = 0 ∧ config.plotTimeSpectrogram = 0 ∧
      config.plotTimeDomain = 0 ∧ config.plotPhase = 0 then (0, config)
  else if !L.fopen config.profileFile then (0, config)
  else if !L.fopen config.referenceFile then (0, config)
  else if !L.fopen config.comparisonFile then (0, config)
  else if config.logScale ≠ 0 ∧ config.plotRatio.eq (.fin 0) then
    (1, { config with plotRatio := L.divLog10 config.endHzPlot })
  else (1, config)

/-- The code of `commandline` after the option loop, `leftover` telling
whether `optind < argc`. Returns the return value and the final
configuration. -/
def commandlineFinish (K : Constants) (L : Libc) (leftover : Bool) (s : State) :
    Int × parameters :=
  let config := s.config
  if leftover then (0, config)
  else if s.ref = 0 ∨ s.tar = 0 then (0, config)
  else if config.extendedResults ≠ 0 ∧ config.justResults ≠ 0 then (0, config)
  else if config.showAll ≠ 0 ∧ config.justResults ≠ 0 then (0, config)
  else if config.FullTimeSpectroScale ≠ 0 then
    commandlineRangeAndFiles L { config with MaxFreq := truncToInt K.END_HZ }
  else commandlineRangeAndFiles L config

/-- The state when the option loop of `commandline` starts. -/
def initialState (K : Constants) (config : parameters) : State :=
  { config := CleanParameters K config, ref := 0, tar := 0 }

/-- The outcome of the option loop of `commandline`. -/
def loopOutcome (K : Constants) (L : Libc) (argv : List (List Char))
    (config : parameters) : SwitchResult :=
  commandlineLoop K L (getoptAll L.posixlyCorrect argv).1 (initialState K config)

/-- `commandline`: the return value and the contents of `*config` on
return. -/
def commandline (K : Constants) (L : Libc) (argv : List (List Char))
    (config : parameters) : Int × parameters :=
  match loopOutcome K L argv config with
  | .ret0 s1 => (0, s1.config)
  | .brk s1 => commandlineFinish K L (getoptAll L.posixlyCorrect argv).2 s1

/-- The state carried by an outcome of the `switch`. -/
def SwitchResult.state : SwitchResult → State
  | .brk s => s
  | .ret0 s => s

/-- Whether the outcome is a `break`: for the outcome of the option loop,
whether the loop ran to its end and no option made `commandline` return 0. -/
def SwitchResult.isBrk : SwitchResult → Bool
  | .brk _ => true
  | .ret0 _ => false

/-- The option characters that `getopt` returns on `argv`, in order: the
options given on the command line (`'?'` standing for a rejected one). -/
def optionsGiven (posix : Bool) (argv : List (List Char)) : List Char :=
  (getoptAll posix argv).1.map (fun it => it.code.1)

/-! ## Sample constants and C library, for the examples -/

/-- Values of the macros used in the examples. -/
def sampleConstants : Constants :=
  { PROFILE_FILE := "profiles/mdfourier.mdf".toList
    START_HZ := 20
    END_HZ := 20000
    START_HZ_PLOT := 0
    MAX_HZ := 96000
    DB_HEIGHT := 18
    SIGNIFICANT_VOLUME := -60
    BAR_DIFF_DB_TOLERANCE := 1
    FREQ_COUNT := 2000
    MAX_FREQ_COUNT := 40000
    MAX_SYNC := 10
    PLOT_RES_X := 1600
    PLOT_RES_Y := 800
    PLOT_RES_X_LOW := 800
    PLOT_RES_Y_LOW := 400
    PLOT_RES_X_1K := 1024
    PLOT_RES_Y_1K := 768
    PLOT_RES_X_HI := 1920
    PLOT_RES_Y_HI := 1080
    PLOT_RES_X_4K := 3840
    PLOT_RES_Y_4K := 2160
    PLOT_RES_X_FP := 8000
    PLOT_RES_Y_FP := 4000 }

/-- The value of the leading decimal digits of a string (onto the
accumulator `acc`), their number, and the rest of the string. -/
def readDigits : List Char → Nat → Nat → Nat × Nat × List Char
  | [], acc, n => (acc, n, [])
  | c :: cs, acc, n =>
    if c.isDigit then readDigits cs (10 * acc + (c.toNat - '0'.toNat)) (n + 1)
    else (acc, n, c :: cs)

/-- The value `strtod` gives to a string without sign: `nan` and `inf`
(in any case), otherwise the leading decimal number `digits[.digits]`, zero
when there is none. Exponents and hexadecimal forms are not covered, and the
value is not rounded. -/
def atofUnsigned (s : List Char) : CDouble :=
  if (s.take 3).map Char.toLower = ['n', 'a', 'n'] then .nan
  else if (s.take 3).map Char.toLower = ['i', 'n', 'f'] then .posInf
  else
    match (readDigits s 0 0).2.2 with
    | '.' :: fs =>
      .fin ((readDigits s 0 0).1 + ((readDigits fs 0 0).1 : ℚ) / 10 ^ (readDigits fs 0 0).2.1)
    | _ => .fin (readDigits s 0 0).1

/-- Negation of a double. -/
def CDouble.neg : CDouble → CDouble
  | .nan => .nan
  | .negInf => .posInf
  | .fin q => .fin (-q)
  | .posInf => .negInf

/-- An `atof` for the examples: leading white space, an optional sign, then
`atofUnsigned`. -/
def sampleAtof (s : List Char) : CDouble :=
  match s.dropWhile Char.isWhitespace with
  | '-' :: t => (atofUnsigned t).neg
  | '+' :: t => atofUnsigned t
  | t => atofUnsigned t

/-- An `atoi` for the examples: leading white space, an optional sign and
decimal digits. -/
def sampleAtoi (s : List Char) : Int :=
  match s.dropWhile Char.isWhitespace with
  | '-' :: t => -((readDigits t 0 0).1 : Int)
  | '+' :: t => (readDigits t 0 0).1
  | t => (readDigits t 0 0).1

/-- A C library for the examples: every file can be opened, `getopt`
permutes. The stand-in for `x/log10(x)` plays no role in the examples. -/
def sampleLibc : Libc :=
  { atof := sampleAtof
    atoi := sampleAtoi
    fopen := fun _ => true
    divLog10 := fun x => x
    posixlyCorrect := false }

/-- An argument vector from its strings. -/
def args (l : List String) : List (List Char) := l.map String.toList

/-- Some contents of `*config` before the call (all zero). -/
def zeroParameters : parameters :=
  { profileFile := []
    referenceFile := []
    comparisonFile := []
    startHz := .fin 0
    endHz := .fin 0
    startHzPlot := .fin 0
    endHzPlot := .fin 0
    maxDbPlotZC := .fin 0
    extendedResults := 0
    justResults := 0
    verbose := 0
    window := Char.ofNat 0
    channel := Char.ofNat 0
    MaxFreq := 0
    clock := 0
    showAll := 0
    ignoreFloor := 0
    useOutputFilter := 0
    outputFilterFunction := 0
    origSignificantAmplitude := .fin 0
    significantAmplitude := .fin 0
    ZeroPad := 0
    debugSync := 0
    channelBalance := 0
    showPercent := 0
    ignoreFrameRateDiff := 0
    outputCSV := 0
    whiteBG := 0
    videoFormatRef := 0
    videoFormatCom := 0
    syncTolerance := 0
    AmpBarRange := .fin 0
    FullTimeSpectroScale := 0
    logScale := 0
    reverseCompare := 0
    normType := .max_time
    plotResX := 0
    plotResY := 0
    plotRatio := .fin 0
    plotDifferences := 0
    plotMissing := 0
    plotSpectrogram := 0
    plotTimeSpectrogram := 0
    plotNoiseFloor := 0
    plotTimeDomain := 0
    plotPhase := 0
    plotAllNotes := 0
    plotAllNotesWindowed := 0
    plotTimeDomainHiDiff := 0
    averagePlot := 0
    weightedAveragePlot := 0
    useExtraData := 0
    quantizeRound := 0
    drawPerfect := 0 }

/-! ## `getopt` on examples -/

/-- Returns of `getopt`: an argument in the next element or glued to the
option, a cluster of flags ending with an option that takes its argument, a
missing argument, an unknown option, a non-option argument (skipped or
stopping the scan) and the end marker `--`. -/
theorem getoptAll_examples :
    getoptAll false (args ["mdfourier", "-r", "a.wav", "-cb.wav"]) =
      ([.opt 'r' "a.wav".toList, .opt 'c' "b.wav".toList], false) ∧
    getoptAll false (args ["mdfourier", "-jlw", "h", "-z"]) =
      ([.opt 'j' [], .opt 'l' [], .opt 'w' "h".toList, .opt 'z' []], false) ∧
    getoptAll false (args ["mdfourier", "-j", "-w"]) = ([.opt 'j' [], .bad 'w'], false) ∧
    getoptAll false (args ["mdfourier", "-G"]) = ([.bad 'G'], false) ∧
    getoptAll false (args ["mdfourier", "file", "-j"]) = ([.opt 'j' []], true) ∧
    getoptAll true (args ["mdfourier", "file", "-j"]) = ([], true) ∧
    getoptAll false (args ["mdfourier", "-j", "--", "-x"]) = ([.opt 'j' []], true) ∧
    getoptAll false (args ["mdfourier", "-j", "--"]) = ([.opt 'j' []], false) := by
  decide

/-! ## The `switch`: which options touch which members -/

set_option maxHeartbeats 4000000 in
/-- Each member below is written by the named option only (`averagePlot` by
`-A` and `-g`): every other return of `getopt` leaves it as it is, also when
the `switch` returns 0. -/
theorem switch_frame (K : Constants) (L : Libc) (c : Char) (a : List Char) (s : State) :
    (c ≠ 'j' → (commandlineSwitch K L c a s).state.config.justResults = s.config.justResults) ∧
    (c ≠ 'x' → (commandlineSwitch K L c a s).state.config.extendedResults
        = s.config.extendedResults) ∧
    (c ≠ 'm' → (commandlineSwitch K L c a s).state.config.showAll = s.config.showAll) ∧
    (c ≠ 'r' → (commandlineSwitch K L c a s).state.ref = s.ref) ∧
    (c ≠ 'c' → (commandlineSwitch K L c a s).state.tar = s.tar) ∧
    (c ≠ 'w' → (commandlineSwitch K L c a s).state.config.window = s.config.window) ∧
    (c ≠ 'a' → (commandlineSwitch K L c a s).state.config.channel = s.config.channel) ∧
    (c ≠ 'n' → (commandlineSwitch K L c a s).state.config.normType = s.config.normType) ∧
    (c ≠ 'b' → (commandlineSwitch K L c a s).state.config.AmpBarRange = s.config.AmpBarRange) ∧
    (c ≠ 'p' → (commandlineSwitch K L c a s).state.config.significantAmplitude
        = s.config.significantAmplitude) ∧
    (c ≠ 'p' → (commandlineSwitch K L c a s).state.config.origSignificantAmplitude
        = s.config.origSignificantAmplitude) ∧
    (c ≠ 'e' → (commandlineSwitch K L c a s).state.config.endHz = s.config.endHz) ∧
    (c ≠ 'e' → (commandlineSwitch K L c a s).state.config.endHzPlot = s.config.endHzPlot) ∧
    (c ≠ 's' → (commandlineSwitch K L c a s).state.config.startHz = s.config.startHz) ∧
    (c ≠ 'Y' → (commandlineSwitch K L c a s).state.config.videoFormatRef
        = s.config.videoFormatRef) ∧
    (c ≠ 'Z' → (commandlineSwitch K L c a s).state.config.videoFormatCom
        = s.config.videoFormatCom) ∧
    (c ≠ 'A' → (commandlineSwitch K L c a s).state.config.weightedAveragePlot
        = s.config.weightedAveragePlot) ∧
    (c ≠ 'H' → (commandlineSwitch K L c a s).state.config.plotTimeDomainHiDiff
        = s.config.plotTimeDomainHiDiff) ∧
    (c ≠ 'L' → (commandlineSwitch K L c a s).state.config.plotResX = s.config.plotResX) ∧
    (c ≠ 'L' → (commandlineSwitch K L c a s).state.config.plotResY = s.config.plotResY) ∧
    (c ≠ 'A' ∧ c ≠ 'g' →
      (commandlineSwitch K L c a s).state.config.averagePlot = s.config.averagePlot) := by
  unfold commandlineSwitch
  split
  all_goals
    (first
      | (refine ⟨?_, ?_, ?_, ?_, ?_, ?_, ?_, ?_, ?_, ?_, ?_, ?_, ?_, ?_, ?_, ?_, ?_, ?_, ?_,
            ?_, ?_⟩ <;> intro h <;>
          first | rfl | exact absurd rfl h | exact absurd rfl h.1 | exact absurd rfl h.2)
      | skip)
  all_goals
    (refine ⟨?_, ?_, ?_, ?_, ?_, ?_, ?_, ?_, ?_, ?_, ?_, ?_, ?_, ?_, ?_, ?_, ?_, ?_, ?_,
        ?_, ?_⟩ <;> intro h <;>
      first
        | exact absurd rfl h
        | (dsimp only; repeat' split
           all_goals rfl))

/-! ## The option loop -/

theorem commandlineLoop_cons (K : Constants) (L : Libc) (it : GetoptItem)
    (items : List GetoptItem) (s : State) :
    commandlineLoop K L (it :: items) s =
      match commandlineSwitch K L it.code.1 it.code.2 s with
      | .brk s1 => commandlineLoop K L items s1
      | .ret0 s1 => .ret0 s1 := rfl

/-- A property of the state that every pass through the `switch` keeps is
kept by the loop. -/
theorem loop_invariant (K : Constants) (L : Libc) (I : State → Prop)
    (hI : ∀ c a s, I s → I (commandlineSwitch K L c a s).state) :
    ∀ (items : List GetoptItem) (s : State), I s → I (commandlineLoop K L items s).state := by
  intro items
  induction items with
  | nil => intro s hs; exact hs
  | cons it items ih =>
    intro s hs
    have h1 := hI it.code.1 it.code.2 s hs
    rw [commandlineLoop_cons]
    cases hsw : commandlineSwitch K L it.code.1 it.code.2 s with
    | brk s1 => rw [hsw] at h1; exact ih s1 h1
    | ret0 s1 => rw [hsw] at h1; exact h1

/-- A member that only the option `ch` writes keeps its value when `ch` is
not among the options. -/
theorem loop_frame {α : Type} (K : Constants) (L : Libc) (f : State → α) (ch : Char)
    (hf : ∀ c a s, c ≠ ch → f (commandlineSwitch K L c a s).state = f s) :
    ∀ (items : List GetoptItem) (s : State), ch ∉ items.map (fun it => it.code.1) →
      f (commandlineLoop K L items s).state = f s := by
  intro items
  induction items with
  | nil => intro s _; rfl
  | cons it items ih =>
    intro s h
    rw [List.map_cons, List.mem_cons, not_or] at h
    have h1 := hf it.code.1 it.code.2 s (Ne.symm h.1)
    rw [commandlineLoop_cons]
    cases hsw : commandlineSwitch K L it.code.1 it.code.2 s with
    | brk s1 =>
      rw [hsw] at h1
      exact (ih s1 h.2).trans h1
    | ret0 s1 => rw [hsw] at h1; exact h1

/-- A flag that the option `ch` sets to 1 and no other option writes is 1
when the loop finishes and `ch` is among the options. -/
theorem loop_flag (K : Constants) (L : Libc) (f : State → Int) (ch : Char)
    (hset : ∀ a s, f (commandlineSwitch K L ch a s).state = 1)
    (hf : ∀ c a s, c ≠ ch → f (commandlineSwitch K L c a s).state = f s) :
    ∀ (items : List GetoptItem) (s s2 : State), ch ∈ items.map (fun it => it.code.1) →
      commandlineLoop K L items s = .brk s2 → f s2 = 1 := by
  intro items
  induction items with
  | nil => intro s s2 h; simp at h
  | cons it items ih =>
    intro s s2 h hl
    rw [commandlineLoop_cons] at hl
    cases hsw : commandlineSwitch K L it.code.1 it.code.2 s with
    | ret0 s1 => rw [hsw] at hl; dsimp only at hl; cases hl
    | brk s1 =>
      rw [hsw] at hl
      dsimp only at hl
      by_cases hin : ch ∈ items.map (fun it => it.code.1)
      · exact ih s1 s2 hin hl
      · have h3 := loop_frame K L f ch hf items s1 hin
        rw [hl] at h3
        rw [List.map_cons, List.mem_cons] at h
        rcases h with h | h
        · have h4 := hset it.code.2 s
          rw [h, hsw] at h4
          exact h3.trans h4
        · exact absurd h hin

/-- When some return of `getopt` makes the `switch` return 0 whatever the
state, the loop returns 0. -/
theorem loop_ret0 (K : Constants) (L : Libc) (it0 : GetoptItem)
    (hbad : ∀ s, commandlineSwitch K L it0.code.1 it0.code.2 s = .ret0 s) :
    ∀ (items : List GetoptItem) (s : State), it0 ∈ items →
      ∃ s1, commandlineLoop K L items s = .ret0 s1 := by
  intro items
  induction items with
  | nil => intro s h; simp at h
  | cons it items ih =>
    intro s h
    rw [commandlineLoop_cons]
    cases hsw : commandlineSwitch K L it.code.1 it.code.2 s with
    | ret0 s1 => exact ⟨s1, rfl⟩
    | brk s1 =>
      rw [List.mem_cons] at h
      rcases h with h | h
      · rw [← h, hbad s] at hsw; cases hsw
      · exact ih s1 h

/-- A property that the loop over `rest` has from every state holds of the
loop over `pre ++ rest`, when the loop over `pre` runs to its end. -/
theorem loop_append_reached (K : Constants) (L : Libc) (P : SwitchResult → Prop)
    (rest : List GetoptItem) (h : ∀ s, P (commandlineLoop K L rest s)) :
    ∀ (pre : List GetoptItem) (s0 : State), (commandlineLoop K L pre s0).isBrk = true →
      P (commandlineLoop K L (pre ++ rest) s0) := by
  intro pre
  induction pre with
  | nil => intro s0 _; exact h s0
  | cons it pre ih =>
    intro s0 hpre
    rw [List.cons_append, commandlineLoop_cons]
    rw [commandlineLoop_cons] at hpre
    cases hsw : commandlineSwitch K L it.code.1 it.code.2 s0 with
    | brk s1 =>
      rw [hsw] at hpre
      exact ih s1 hpre
    | ret0 s1 =>
      rw [hsw] at hpre
      cases hpre

/-- The loop runs to its end over `pre` followed by one more option, when it
does over `pre` and the `switch` ends this option with `break`. -/
theorem loop_accepts (K : Constants) (L : Libc) (ch : Char) (a : List Char)
    (hbrk : ∀ s, (commandlineSwitch K L ch a s).isBrk = true)
    (pre : List GetoptItem) (s0 : State)
    (hpre : (commandlineLoop K L pre s0).isBrk = true) :
    (commandlineLoop K L (pre ++ [.opt ch a]) s0).isBrk = true := by
  refine loop_append_reached K L (fun r => r.isBrk = true) _ ?_ pre s0 hpre
  intro s
  have h1 := hbrk s
  rw [commandlineLoop_cons]
  show (match commandlineSwitch K L ch a s with
    | .brk s1 => commandlineLoop K L [] s1
    | .ret0 s1 => .ret0 s1).isBrk = true
  cases hsw : commandlineSwitch K L ch a s with
  | brk s1 => rfl
  | ret0 s1 =>
    rw [hsw] at h1
    cases h1

/-- A member that the option `ch` with the argument `a` sets to `v`, and
that only `ch` writes, is `v` after the loop when the loop reaches this
option and `ch` does not come again after it. -/
theorem loop_store_reached {α : Type} (K : Constants) (L : Libc) (f : State → α) (ch : Char)
    (a : List Char) (v : α)
    (hset : ∀ s, f (commandlineSwitch K L ch a s).state = v)
    (hf : ∀ c b s, c ≠ ch → f (commandlineSwitch K L c b s).state = f s)
    (pre post : List GetoptItem) (s0 : State)
    (hpre : (commandlineLoop K L pre s0).isBrk = true)
    (hpost : ch ∉ post.map (fun it => it.code.1)) :
    f (commandlineLoop K L (pre ++ .opt ch a :: post) s0).state = v := by
  refine loop_append_reached K L (fun r => f r.state = v) _ ?_ pre s0 hpre
  intro s
  have h1 := hset s
  rw [commandlineLoop_cons]
  show f (match commandlineSwitch K L ch a s with
    | .brk s1 => commandlineLoop K L post s1
    | .ret0 s1 => .ret0 s1).state = v
  cases hsw : commandlineSwitch K L ch a s with
  | brk s1 =>
    rw [hsw] at h1
    exact (loop_frame K L f ch hf post s1 hpost).trans h1
  | ret0 s1 =>
    rw [hsw] at h1
    exact h1

/-- A member that the option `ch` sets to `v`, and that no option changes
once it is `v`, is `v` after the loop when the loop reaches an option
`ch`. -/
theorem loop_latch_reached {α : Type} (K : Constants) (L : Libc) (f : State → α) (ch : Char)
    (v : α)
    (hset : ∀ a s, f (commandlineSwitch K L ch a s).state = v)
    (hkeep : ∀ c a s, f s = v → f (commandlineSwitch K L c a s).state = v)
    (pre post : List GetoptItem) (b : List Char) (s0 : State)
    (hpre : (commandlineLoop K L pre s0).isBrk = true) :
    f (commandlineLoop K L (pre ++ .opt ch b :: post) s0).state = v := by
  refine loop_append_reached K L (fun r => f r.state = v) _ ?_ pre s0 hpre
  intro s
  have h1 := hset b s
  rw [commandlineLoop_cons]
  show f (match commandlineSwitch K L ch b s with
    | .brk s1 => commandlineLoop K L post s1
    | .ret0 s1 => .ret0 s1).state = v
  cases hsw : commandlineSwitch K L ch b s with
  | brk s1 =>
    rw [hsw] at h1
    exact loop_invariant K L (fun t => f t = v) hkeep post s1 h1
  | ret0 s1 =>
    rw [hsw] at h1
    exact h1

/-! ## The checks after the loop -/

/-- The end of `commandline` writes `plotRatio` only. -/
theorem commandlineRangeAndFiles_config (L : Libc) (config : parameters) :
    (commandlineRangeAndFiles L config).2 =
      { config with plotRatio := (commandlineRangeAndFiles L config).2.plotRatio } := by
  unfold commandlineRangeAndFiles
  split_ifs <;> rfl

/-- The end of `commandline` returns 1 only for a range with
`endHz <= startHz` false. -/
theorem commandlineRangeAndFiles_one (L : Libc) (config : parameters)
    (h : (commandlineRangeAndFiles L config).1 = 1) :
    config.endHz.le config.startHz = false := by
  unfold commandlineRangeAndFiles at h
  split_ifs at h with h1
  · exact absurd h (by simp)
  all_goals exact Bool.eq_false_iff.mpr h1

/-- The checks after the loop write `MaxFreq` and `plotRatio` only. -/
theorem commandlineFinish_config (K : Constants) (L : Libc) (leftover : Bool) (s : State) :
    (commandlineFinish K L leftover s).2 =
      { s.config with
        MaxFreq := (commandlineFinish K L leftover s).2.MaxFreq
        plotRatio := (commandlineFinish K L leftover s).2.plotRatio } := by
  unfold commandlineFinish
  dsimp only
  split_ifs
  any_goals rfl
  all_goals (rw [commandlineRangeAndFiles_config])

/-- What a return value 1 of the checks after the loop tells. -/
theorem commandlineFinish_one (K : Constants) (L : Libc) (leftover : Bool) (s : State)
    (h : (commandlineFinish K L leftover s).1 = 1) :
    leftover = false ∧ s.ref ≠ 0 ∧ s.tar ≠ 0 ∧
    ¬ (s.config.extendedResults ≠ 0 ∧ s.config.justResults ≠ 0) ∧
    ¬ (s.config.showAll ≠ 0 ∧ s.config.justResults ≠ 0) ∧
    s.config.endHz.le s.config.startHz = false := by
  unfold commandlineFinish at h
  dsimp only at h
  split_ifs at h with h1 h2 h3 h4 h5
  all_goals (first | (exact absurd h (by simp)) | skip)
  all_goals
    (have h6 := commandlineRangeAndFiles_one L _ h
     refine ⟨by simpa using h1, ?_, ?_, h3, h4, h6⟩
     · exact fun h0 => h2 (Or.inl h0)
     · exact fun h0 => h2 (Or.inr h0))

/-! ## From the loop to `commandline` -/

theorem commandline_eq (K : Constants) (L : Libc) (argv : List (List Char))
    (config : parameters) :
    commandline K L argv config =
      match loopOutcome K L argv config with
      | .ret0 s1 => (0, s1.config)
      | .brk s1 => commandlineFinish K L (getoptAll L.posixlyCorrect argv).2 s1 := rfl

/-- A return value 1 of `commandline`: the loop ran to its end, and the
checks after it passed. -/
theorem commandline_one (K : Constants) (L : Libc) (argv : List (List Char))
    (config : parameters) (h : (commandline K L argv config).1 = 1) :
    ∃ s1, loopOutcome K L argv config = .brk s1 ∧
      (commandlineFinish K L (getoptAll L.posixlyCorrect argv).2 s1).1 = 1 ∧
      commandline K L argv config =
        commandlineFinish K L (getoptAll L.posixlyCorrect argv).2 s1 := by
  rw [commandline_eq] at h ⊢
  cases hl : loopOutcome K L argv config with
  | ret0 s1 => rw [hl] at h; exact absurd h (by simp)
  | brk s1 => rw [hl] at h; exact ⟨s1, rfl, h, rfl⟩

/-- A member other than `MaxFreq` and `plotRatio` has on return the value
it has after the option loop. -/
theorem commandline_member {α : Type} (K : Constants) (L : Libc) (argv : List (List Char))
    (config : parameters) (f : parameters → α)
    (hf : ∀ (c : parameters) (m : Int) (r : CDouble),
      f { c with MaxFreq := m, plotRatio := r } = f c) :
    f (commandline K L argv config).2 = f (loopOutcome K L argv config).state.config := by
  rw [commandline_eq]
  cases hl : loopOutcome K L argv config with
  | ret0 s1 => rfl
  | brk s1 =>
    dsimp only [SwitchResult.state]
    rw [commandlineFinish_config, hf]

/-- When some return of `getopt` makes the `switch` return 0 whatever the
state, `commandline` returns 0. -/
theorem commandline_zero_of_bad (K : Constants) (L : Libc) (argv : List (List Char))
    (config : parameters) (it0 : GetoptItem)
    (hbad : ∀ s, commandlineSwitch K L it0.code.1 it0.code.2 s = .ret0 s)
    (hmem : it0 ∈ (getoptAll L.posixlyCorrect argv).1) :
    (commandline K L argv config).1 = 0 := by
  obtain ⟨s1, hs1⟩ := loop_ret0 K L it0 hbad _ (initialState K config) hmem
  rw [commandline_eq]
  unfold loopOutcome
  rw [hs1]

/-- The return value of `commandline` is 0 or 1. -/
theorem commandline_ret (K : Constants) (L : Libc) (argv : List (List Char))
    (config : parameters) :
    (commandline K L argv config).1 = 0 ∨ (commandline K L argv config).1 = 1 := by
  have hR : ∀ c : parameters, (commandlineRangeAndFiles L c).1 = 0 ∨
      (commandlineRangeAndFiles L c).1 = 1 := by
    intro c
    unfold commandlineRangeAndFiles
    split_ifs <;> simp
  rw [commandline_eq]
  cases loopOutcome K L argv config with
  | ret0 s1 => exact Or.inl rfl
  | brk s1 =>
    dsimp only
    unfold commandlineFinish
    dsimp only
    split_ifs
    all_goals first | exact hR _ | exact Or.inl rfl

/-- The value on return of a member other than `MaxFreq` and `plotRatio`
that the option `ch` with the argument `a` sets to `v` and only `ch` writes,
when the loop reaches this option and `ch` does not come again after it. -/
theorem commandline_store_reached {α : Type} (K : Constants) (L : Libc)
    (argv : List (List Char)) (config : parameters) (f : parameters → α)
    (hfin : ∀ (c : parameters) (m : Int) (r : CDouble),
      f { c with MaxFreq := m, plotRatio := r } = f c)
    (ch : Char) (a : List Char) (v : α)
    (hset : ∀ s, f (commandlineSwitch K L ch a s).state.config = v)
    (hf : ∀ c b s, c ≠ ch → f (commandlineSwitch K L c b s).state.config = f s.config)
    (pre post : List GetoptItem)
    (hitems : (getoptAll L.posixlyCorrect argv).1 = pre ++ .opt ch a :: post)
    (hpre : (commandlineLoop K L pre (initialState K config)).isBrk = true)
    (hpost : ch ∉ post.map (fun it => it.code.1)) :
    f (commandline K L argv config).2 = v := by
  rw [commandline_member K L argv config f hfin]
  unfold loopOutcome
  rw [hitems]
  exact loop_store_reached K L (fun s => f s.config) ch a v hset hf pre post _ hpre hpost

/-! ## The window, normalization and channel options -/

theorem switch_w (K : Constants) (L : Libc) (a : List Char) (s : State) :
    commandlineSwitch K L 'w' a s =
      if firstChar a = 'n' ∨ firstChar a = 'f' ∨ firstChar a = 'h'
          ∨ firstChar a = 't' ∨ firstChar a = 'm' then
        .brk { s with config := { s.config with window := firstChar a } }
      else .ret0 s := rfl

theorem switch_n (K : Constants) (L : Libc) (a : List Char) (s : State) :
    commandlineSwitch K L 'n' a s =
      if firstChar a = 't' then
        .brk { s with config := { s.config with normType := .max_time } }
      else if firstChar a = 'f' then
        .brk { s with config := { s.config with normType := .max_frequency } }
      else if firstChar a = 'a' then
        .brk { s with config := { s.config with normType := .average } }
      else if firstChar a = 'n' then
        .brk { s with config := { s.config with normType := .none } }
      else .ret0 s := rfl

theorem switch_a (K : Constants) (L : Libc) (a : List Char) (s : State) :
    commandlineSwitch K L 'a' a s =
      if firstChar a = 'l' ∨ firstChar a = 'r' ∨ firstChar a = 's' then
        .brk { s with config := { s.config with channel := firstChar a } }
      else .ret0 s := rfl

/-- C2: the option `-w` stores the first character of its argument in
`config->window` exactly when that character is one of n, t, h, f, m, and the
`switch` returns 0 for any other first character; so `commandline` returns 0
when such a `-w` is on the command line, and the window of the configuration
is always one of the five. A `-w` with one of the five characters that the
option loop of `commandline` reaches is accepted (the loop goes on after it),
and its character is the window on return when no `-w` comes after it. -/
theorem window_option_checked (K : Constants) (L : Libc) (a : List Char) :
    (firstChar a ∈ ['n', 't', 'h', 'f', 'm'] →
      ∀ s, commandlineSwitch K L 'w' a s =
        .brk { s with config := { s.config with window := firstChar a } }) ∧
    (firstChar a ∉ ['n', 't', 'h', 'f', 'm'] →
      (∀ s, commandlineSwitch K L 'w' a s = .ret0 s) ∧
      ∀ argv config, GetoptItem.opt 'w' a ∈ (getoptAll L.posixlyCorrect argv).1 →
        (commandline K L argv config).1 = 0) ∧
    (∀ argv config, (commandline K L argv config).2.window ∈ ['n', 't', 'h', 'f', 'm']) ∧
    (firstChar a ∈ ['n', 't', 'h', 'f', 'm'] →
      ∀ argv config pre post,
        (getoptAll L.posixlyCorrect argv).1 = pre ++ .opt 'w' a :: post →
        (commandlineLoop K L pre (initialState K config)).isBrk = true →
        (commandlineLoop K L (pre ++ [.opt 'w' a]) (initialState K config)).isBrk = true ∧
        ('w' ∉ post.map (fun it => it.code.1) →
          (commandline K L argv config).2.window = firstChar a)) := by
  have hbad : firstChar a ∉ ['n', 't', 'h', 'f', 'm'] →
      ∀ s, commandlineSwitch K L 'w' a s = .ret0 s := by
    intro h s
    rw [switch_w, if_neg]
    simp only [List.mem_cons, List.mem_singleton, List.not_mem_nil, or_false] at h
    tauto
  have hgood : firstChar a ∈ ['n', 't', 'h', 'f', 'm'] →
      ∀ s, commandlineSwitch K L 'w' a s =
        .brk { s with config := { s.config with window := firstChar a } } := by
    intro h s
    rw [switch_w, if_pos]
    simp only [List.mem_cons, List.mem_singleton, List.not_mem_nil, or_false] at h
    tauto
  refine ⟨hgood, fun h => ⟨hbad h, ?_⟩, ?_, ?_⟩
  · intro argv config hmem
    exact commandline_zero_of_bad K L argv config (.opt 'w' a) (hbad h) hmem
  · intro argv config
    rw [commandline_member K L argv config (fun c => c.window) (fun _ _ _ => rfl)]
    refine loop_invariant K L (fun s => s.config.window ∈ ['n', 't', 'h', 'f', 'm']) ?_ _ _ ?_
    · intro c b s hs
      by_cases hc : c = 'w'
      · subst hc
        rw [switch_w]
        split_ifs with h1
        · simp only [SwitchResult.state, List.mem_cons, List.mem_singleton, List.not_mem_nil,
            or_false]
          tauto
        · exact hs
      · dsimp only
        rw [(switch_frame K L c b s).2.2.2.2.2.1 hc]
        exact hs
    · simp [initialState, CleanParameters]
  · intro h argv config pre post hitems hpre
    constructor
    · refine loop_accepts K L 'w' a ?_ pre _ hpre
      intro s
      rw [hgood h s]
      rfl
    · intro hpost
      refine commandline_store_reached K L argv config (fun c => c.window) (fun _ _ _ => rfl)
        'w' a (firstChar a) ?_ (fun c b s hc => (switch_frame K L c b s).2.2.2.2.2.1 hc)
        pre post hitems hpre hpost
      intro s
      rw [hgood h s]
      rfl

/-- The claim C2 at `-r a.wav -c b.wav -w h`: h is a window, the loop
reaches `-w h` after `-r` and `-c`, and `commandline` returns 1 with the
window `'h'`; and at `-r a.wav -c b.wav -w x`: x is no window, and
`commandline` returns 0. -/
theorem window_option_checked_witness :
    (firstChar "h".toList ∈ ['n', 't', 'h', 'f', 'm'] ∧
      (getoptAll sampleLibc.posixlyCorrect
        (args ["mdfourier", "-r", "a.wav", "-c", "b.wav", "-w", "h"])).1 =
        [.opt 'r' "a.wav".toList, .opt 'c' "b.wav".toList] ++ .opt 'w' "h".toList :: [] ∧
      (commandlineLoop sampleConstants sampleLibc
        [.opt 'r' "a.wav".toList, .opt 'c' "b.wav".toList]
        (initialState sampleConstants zeroParameters)).isBrk = true ∧
      (commandline sampleConstants sampleLibc
        (args ["mdfourier", "-r", "a.wav", "-c", "b.wav", "-w", "h"]) zeroParameters).1 = 1 ∧
      (commandline sampleConstants sampleLibc
        (args ["mdfourier", "-r", "a.wav", "-c", "b.wav", "-w", "h"]) zeroParameters).2.window
          = 'h') ∧
    (firstChar "x".toList ∉ ['n', 't', 'h', 'f', 'm'] ∧
      GetoptItem.opt 'w' "x".toList ∈
        (getoptAll sampleLibc.posixlyCorrect
          (args ["mdfourier", "-r", "a.wav", "-c", "b.wav", "-w", "x"])).1 ∧
      (commandline sampleConstants sampleLibc
        (args ["mdfourier", "-r", "a.wav", "-c", "b.wav", "-w", "x"]) zeroParameters).1 = 0) :=
  ⟨⟨by decide, by decide, by decide, by decide,
      ((window_option_checked sampleConstants sampleLibc "h".toList).2.2.2 (by decide)
        (args ["mdfourier", "-r", "a.wav", "-c", "b.wav", "-w", "h"]) zeroParameters
        [.opt 'r' "a.wav".toList, .opt 'c' "b.wav".toList] [] (by decide) (by decide)).2
        (by decide)⟩,
    ⟨by decide, by decide,
      ((window_option_checked sampleConstants sampleLibc "x".toList).2.1 (by decide)).2
        _ _ (by decide)⟩⟩

/-- C3: the option `-n` selects the normalization from the first character
of its argument: t gives `max_time`, f `max_frequency`, a `average` and n
`none`; for any other first character the `switch` returns 0, and so does
`commandline` when such a `-n` is on the command line. A `-n` with one of the
four characters that the option loop of `commandline` reaches is accepted (the
loop goes on after it), and its mode is the normalization on return when no
`-n` comes after it. -/
theorem normalization_option_checked (K : Constants) (L : Libc) (a : List Char) :
    (firstChar a = 't' → ∀ s, commandlineSwitch K L 'n' a s =
      .brk { s with config := { s.config with normType := .max_time } }) ∧
    (firstChar a = 'f' → ∀ s, commandlineSwitch K L 'n' a s =
      .brk { s with config := { s.config with normType := .max_frequency } }) ∧
    (firstChar a = 'a' → ∀ s, commandlineSwitch K L 'n' a s =
      .brk { s with config := { s.config with normType := .average } }) ∧
    (firstChar a = 'n' → ∀ s, commandlineSwitch K L 'n' a s =
      .brk { s with config := { s.config with normType := .none } }) ∧
    (firstChar a ∉ ['t', 'f', 'a', 'n'] →
      (∀ s, commandlineSwitch K L 'n' a s = .ret0 s) ∧
      ∀ argv config, GetoptItem.opt 'n' a ∈ (getoptAll L.posixlyCorrect argv).1 →
        (commandline K L argv config).1 = 0) ∧
    (∀ mode : Normalize,
      (firstChar a = 't' ∧ mode = .max_time ∨ firstChar a = 'f' ∧ mode = .max_frequency ∨
        firstChar a = 'a' ∧ mode = .average ∨ firstChar a = 'n' ∧ mode = .none) →
      ∀ argv config pre post,
        (getoptAll L.posixlyCorrect argv).1 = pre ++ .opt 'n' a :: post →
        (commandlineLoop K L pre (initialState K config)).isBrk = true →
        (commandlineLoop K L (pre ++ [.opt 'n' a]) (initialState K config)).isBrk = true ∧
        ('n' ∉ post.map (fun it => it.code.1) →
          (commandline K L argv config).2.normType = mode)) := by
  have hbad : firstChar a ∉ ['t', 'f', 'a', 'n'] →
      ∀ s, commandlineSwitch K L 'n' a s = .ret0 s := by
    intro h s
    simp only [List.mem_cons, List.mem_singleton, List.not_mem_nil, or_false, not_or] at h
    rw [switch_n, if_neg h.1, if_neg h.2.1, if_neg h.2.2.1, if_neg h.2.2.2]
  have ht : firstChar a = 't' → ∀ s, commandlineSwitch K L 'n' a s =
      .brk { s with config := { s.config with normType := .max_time } } := by
    intro h s
    rw [switch_n, if_pos h]
  have hf : firstChar a = 'f' → ∀ s, commandlineSwitch K L 'n' a s =
      .brk { s with config := { s.config with normType := .max_frequency } } := by
    intro h s
    rw [switch_n, if_neg (by rw [h]; decide), if_pos h]
  have ha : firstChar a = 'a' → ∀ s, commandlineSwitch K L 'n' a s =
      .brk { s with config := { s.config with normType := .average } } := by
    intro h s
    rw [switch_n, if_neg (by rw [h]; decide), if_neg (by rw [h]; decide), if_pos h]
  have hn : firstChar a = 'n' → ∀ s, commandlineSwitch K L 'n' a s =
      .brk { s with config := { s.config with normType := .none } } := by
    intro h s
    rw [switch_n, if_neg (by rw [h]; decide), if_neg (by rw [h]; decide),
      if_neg (by rw [h]; decide), if_pos h]
  refine ⟨ht, hf, ha, hn, fun h => ⟨hbad h, ?_⟩, ?_⟩
  · intro argv config hmem
    exact commandline_zero_of_bad K L argv config (.opt 'n' a) (hbad h) hmem
  · intro mode hmode argv config pre post hitems hpre
    have hsw : ∀ s, (commandlineSwitch K L 'n' a s).isBrk = true ∧
        (commandlineSwitch K L 'n' a s).state.config.normType = mode := by
      intro s
      rcases hmode with h | h | h | h
      · rw [ht h.1 s, h.2]; exact ⟨rfl, rfl⟩
      · rw [hf h.1 s, h.2]; exact ⟨rfl, rfl⟩
      · rw [ha h.1 s, h.2]; exact ⟨rfl, rfl⟩
      · rw [hn h.1 s, h.2]; exact ⟨rfl, rfl⟩
    constructor
    · exact loop_accepts K L 'n' a (fun s => (hsw s).1) pre _ hpre
    · intro hpost
      exact commandline_store_reached K L argv config (fun c => c.normType)
        (fun _ _ _ => rfl) 'n' a mode (fun s => (hsw s).2)
        (fun c b s hc => (switch_frame K L c b s).2.2.2.2.2.2.2.1 hc)
        pre post hitems hpre hpost

/-- The claim C3 at `-r a.wav -c b.wav -n t`: the loop reaches `-n t` after
`-r` and `-c`, and `commandline` returns 1 with the normalization `max_time`;
and at `-r a.wav -c b.wav -nq`: q is no normalization, and `commandline`
returns 0. -/
theorem normalization_option_checked_witness :
    (firstChar "t".toList = 't' ∧
      (getoptAll sampleLibc.posixlyCorrect
        (args ["mdfourier", "-r", "a.wav", "-c", "b.wav", "-n", "t"])).1 =
        [.opt 'r' "a.wav".toList, .opt 'c' "b.wav".toList] ++ .opt 'n' "t".toList :: [] ∧
      (commandlineLoop sampleConstants sampleLibc
        [.opt 'r' "a.wav".toList, .opt 'c' "b.wav".toList]
        (initialState sampleConstants zeroParameters)).isBrk = true ∧
      (commandline sampleConstants sampleLibc
        (args ["mdfourier", "-r", "a.wav", "-c", "b.wav", "-n", "t"]) zeroParameters).1 = 1 ∧
      (commandline sampleConstants sampleLibc
        (args ["mdfourier", "-r", "a.wav", "-c", "b.wav", "-n", "t"]) zeroParameters).2.normType
          = .max_time) ∧
    (firstChar "q".toList ∉ ['t', 'f', 'a', 'n'] ∧
      GetoptItem.opt 'n' "q".toList ∈
        (getoptAll sampleLibc.posixlyCorrect
          (args ["mdfourier", "-r", "a.wav", "-c", "b.wav", "-nq"])).1 ∧
      (commandline sampleConstants sampleLibc
        (args ["mdfourier", "-r", "a.wav", "-c", "b.wav", "-nq"]) zeroParameters).1 = 0) :=
  ⟨⟨by decide, by decide, by decide, by decide,
      ((normalization_option_checked sampleConstants sampleLibc "t".toList).2.2.2.2.2
        .max_time (Or.inl ⟨by decide, rfl⟩)
        (args ["mdfourier", "-r", "a.wav", "-c", "b.wav", "-n", "t"]) zeroParameters
        [.opt 'r' "a.wav".toList, .opt 'c' "b.wav".toList] [] (by decide) (by decide)).2
        (by decide)⟩,
    ⟨by decide, by decide,
      ((normalization_option_checked sampleConstants sampleLibc "q".toList).2.2.2.2.1
        (by decide)).2 _ _ (by decide)⟩⟩

/-- C4: the option `-a` stores the first character of its argument in
`config->channel` exactly when that character is l, r or s, and the `switch`
returns 0 for any other first character, so that `commandline` returns 0 when
such a `-a` is on the command line; without an option `-a` the channel is
`'s'` on return. A `-a` with one of the three characters that the option loop
of `commandline` reaches is accepted (the loop goes on after it), and its
character is the channel on return when no `-a` comes after it. -/
theorem channel_option_checked (K : Constants) (L : Libc) (a : List Char) :
    (firstChar a ∈ ['l', 'r', 's'] →
      ∀ s, commandlineSwitch K L 'a' a s =
        .brk { s with config := { s.config with channel := firstChar a } }) ∧
    (firstChar a ∉ ['l', 'r', 's'] →
      (∀ s, commandlineSwitch K L 'a' a s = .ret0 s) ∧
      ∀ argv config, GetoptItem.opt 'a' a ∈ (getoptAll L.posixlyCorrect argv).1 →
        (commandline K L argv config).1 = 0) ∧
    (∀ argv config, 'a' ∉ optionsGiven L.posixlyCorrect argv →
      (commandline K L argv config).2.channel = 's') ∧
    (firstChar a ∈ ['l', 'r', 's'] →
      ∀ argv config pre post,
        (getoptAll L.posixlyCorrect argv).1 = pre ++ .opt 'a' a :: post →
        (commandlineLoop K L pre (initialState K config)).isBrk = true →
        (commandlineLoop K L (pre ++ [.opt 'a' a]) (initialState K config)).isBrk = true ∧
        ('a' ∉ post.map (fun it => it.code.1) →
          (commandline K L argv config).2.channel = firstChar a)) := by
  have hbad : firstChar a ∉ ['l', 'r', 's'] →
      ∀ s, commandlineSwitch K L 'a' a s = .ret0 s := by
    intro h s
    rw [switch_a, if_neg]
    simp only [List.mem_cons, List.mem_singleton, List.not_mem_nil, or_false] at h
    exact h
  have hgood : firstChar a ∈ ['l', 'r', 's'] →
      ∀ s, commandlineSwitch K L 'a' a s =
        .brk { s with config := { s.config with channel := firstChar a } } := by
    intro h s
    rw [switch_a, if_pos]
    simp only [List.mem_cons, List.mem_singleton, List.not_mem_nil, or_false] at h
    exact h
  refine ⟨hgood, fun h => ⟨hbad h, ?_⟩, ?_, ?_⟩
  · intro argv config hmem
    exact commandline_zero_of_bad K L argv config (.opt 'a' a) (hbad h) hmem
  · intro argv config hno
    rw [commandline_member K L argv config (fun c => c.channel) (fun _ _ _ => rfl)]
    exact loop_frame K L (fun s => s.config.channel) 'a'
      (fun c b s hc => (switch_frame K L c b s).2.2.2.2.2.2.1 hc) _ (initialState K config) hno
  · intro h argv config pre post hitems hpre
    constructor
    · refine loop_accepts K L 'a' a ?_ pre _ hpre
      intro s
      rw [hgood h s]
      rfl
    · intro hpost
      refine commandline_store_reached K L argv config (fun c => c.channel) (fun _ _ _ => rfl)
        'a' a (firstChar a) ?_ (fun c b s hc => (switch_frame K L c b s).2.2.2.2.2.2.1 hc)
        pre post hitems hpre hpost
      intro s
      rw [hgood h s]
      rfl

/-- The claim C4 at `-r a.wav -c b.wav -a l`: the loop reaches `-a l` after
`-r` and `-c`, and `commandline` returns 1 with the channel `'l'`; at
`-r a.wav -c b.wav -a x`: x is no channel, and `commandline` returns 0; and
at `-r a.wav -c b.wav`: no option `-a`, and the channel is `'s'`. -/
theorem channel_option_checked_witness :
    (firstChar "l".toList ∈ ['l', 'r', 's'] ∧
      (getoptAll sampleLibc.posixlyCorrect
        (args ["mdfourier", "-r", "a.wav", "-c", "b.wav", "-a", "l"])).1 =
        [.opt 'r' "a.wav".toList, .opt 'c' "b.wav".toList] ++ .opt 'a' "l".toList :: [] ∧
      (commandlineLoop sampleConstants sampleLibc
        [.opt 'r' "a.wav".toList, .opt 'c' "b.wav".toList]
        (initialState sampleConstants zeroParameters)).isBrk = true ∧
      (commandline sampleConstants sampleLibc
        (args ["mdfourier", "-r", "a.wav", "-c", "b.wav", "-a", "l"]) zeroParameters).1 = 1 ∧
      (commandline sampleConstants sampleLibc
        (args ["mdfourier", "-r", "a.wav", "-c", "b.wav", "-a", "l"]) zeroParameters).2.channel
          = 'l') ∧
    (firstChar "x".toList ∉ ['l', 'r', 's'] ∧
      GetoptItem.opt 'a' "x".toList ∈
        (getoptAll sampleLibc.posixlyCorrect
          (args ["mdfourier", "-r", "a.wav", "-c", "b.wav", "-a", "x"])).1 ∧
      (commandline sampleConstants sampleLibc
        (args ["mdfourier", "-r", "a.wav", "-c", "b.wav", "-a", "x"]) zeroParameters).1 = 0) ∧
    ('a' ∉ optionsGiven sampleLibc.posixlyCorrect
        (args ["mdfourier", "-r", "a.wav", "-c", "b.wav"]) ∧
      (commandline sampleConstants sampleLibc (args ["mdfourier", "-r", "a.wav", "-c", "b.wav"])
        zeroParameters).2.channel = 's') :=
  ⟨⟨by decide, by decide, by decide, by decide,
      ((channel_option_checked sampleConstants sampleLibc "l".toList).2.2.2 (by decide)
        (args ["mdfourier", "-r", "a.wav", "-c", "b.wav", "-a", "l"]) zeroParameters
        [.opt 'r' "a.wav".toList, .opt 'c' "b.wav".toList] [] (by decide) (by decide)).2
        (by decide)⟩,
    ⟨by decide, by decide,
      ((channel_option_checked sampleConstants sampleLibc "x".toList).2.1 (by decide)).2
        _ _ (by decide)⟩,
    ⟨by decide,
      (channel_option_checked sampleConstants sampleLibc []).2.2.1 _ _ (by decide)⟩⟩

/-- C5: whatever the previous contents of the configuration,
`CleanParameters` sets the window to `'t'` (Tukey) and the normalization to
`max_frequency`; and after a `commandline` with neither `-w` nor `-n` among
the options both have these values. -/
theorem defaults_window_normalization (K : Constants) (L : Libc) (config : parameters) :
    (CleanParameters K config).window = 't' ∧
    (CleanParameters K config).normType = .max_frequency ∧
    (∀ argv, 'w' ∉ optionsGiven L.posixlyCorrect argv →
      'n' ∉ optionsGiven L.posixlyCorrect argv →
      (commandline K L argv config).2.window = 't' ∧
      (commandline K L argv config).2.normType = .max_frequency) := by
  refine ⟨rfl, rfl, fun argv hw hn => ⟨?_, ?_⟩⟩
  · rw [commandline_member K L argv config (fun c => c.window) (fun _ _ _ => rfl)]
    exact loop_frame K L (fun s => s.config.window) 'w'
      (fun c b s hc => (switch_frame K L c b s).2.2.2.2.2.1 hc) _ (initialState K config) hw
  · rw [commandline_member K L argv config (fun c => c.normType) (fun _ _ _ => rfl)]
    exact loop_frame K L (fun s => s.config.normType) 'n'
      (fun c b s hc => (switch_frame K L c b s).2.2.2.2.2.2.2.1 hc) _ (initialState K config) hn

/-- The claim C5 at `-r a.wav -c b.wav -j`: neither `-w` nor `-n`. -/
theorem defaults_window_normalization_witness :
    'w' ∉ optionsGiven sampleLibc.posixlyCorrect
      (args ["mdfourier", "-r", "a.wav", "-c", "b.wav", "-j"]) ∧
    'n' ∉ optionsGiven sampleLibc.posixlyCorrect
      (args ["mdfourier", "-r", "a.wav", "-c", "b.wav", "-j"]) ∧
    (commandline sampleConstants sampleLibc
      (args ["mdfourier", "-r", "a.wav", "-c", "b.wav", "-j"]) zeroParameters).2.window = 't' ∧
    (commandline sampleConstants sampleLibc
      (args ["mdfourier", "-r", "a.wav", "-c", "b.wav", "-j"]) zeroParameters).2.normType
        = .max_frequency :=
  ⟨by decide, by decide,
    (defaults_window_normalization sampleConstants sampleLibc zeroParameters).2.2 _
      (by decide) (by decide)⟩

/-! ## Required files and incompatible options -/

/-- C9: `commandline` returns 1 only when both a reference file (`-r`) and a
comparison file (`-c`) were given: when `-r` or `-c` is not among the
options, it returns 0. -/
theorem reference_and_comparison_required (K : Constants) (L : Libc)
    (argv : List (List Char)) (config : parameters)
    (h : 'r' ∉ optionsGiven L.posixlyCorrect argv ∨ 'c' ∉ optionsGiven L.posixlyCorrect argv) :
    (commandline K L argv config).1 = 0 := by
  rcases commandline_ret K L argv config with h0 | h1
  · exact h0
  · exfalso
    obtain ⟨s1, hl, hf, _⟩ := commandline_one K L argv config h1
    obtain ⟨_, href, htar, _⟩ := commandlineFinish_one K L _ s1 hf
    rcases h with h | h
    · have h2 := loop_frame K L (fun s => s.ref) 'r'
        (fun c b s hc => (switch_frame K L c b s).2.2.2.1 hc) _ (initialState K config) h
      unfold loopOutcome at hl
      rw [hl] at h2
      exact href h2
    · have h2 := loop_frame K L (fun s => s.tar) 'c'
        (fun c b s hc => (switch_frame K L c b s).2.2.2.2.1 hc) _ (initialState K config) h
      unfold loopOutcome at hl
      rw [hl] at h2
      exact htar h2

/-- The claim C9 at `-r a.wav -l`: no option `-c`, and `commandline`
returns 0. -/
theorem reference_and_comparison_required_witness :
    ('r' ∉ optionsGiven sampleLibc.posixlyCorrect (args ["mdfourier", "-r", "a.wav", "-l"]) ∨
      'c' ∉ optionsGiven sampleLibc.posixlyCorrect (args ["mdfourier", "-r", "a.wav", "-l"])) ∧
    (commandline sampleConstants sampleLibc (args ["mdfourier", "-r", "a.wav", "-l"])
      zeroParameters).1 = 0 :=
  ⟨by decide,
    reference_and_comparison_required sampleConstants sampleLibc _ zeroParameters (by decide)⟩

/-- C10: when `-j` is among the options together with `-x` or `-m`,
`commandline` returns 0; so when it returns 1 the configuration does not have
`justResults` set together with `extendedResults` or `showAll`. -/
theorem just_results_incompatible (K : Constants) (L : Libc)
    (argv : List (List Char)) (config : parameters) :
    ('j' ∈ optionsGiven L.posixlyCorrect argv →
      ('x' ∈ optionsGiven L.posixlyCorrect argv ∨ 'm' ∈ optionsGiven L.posixlyCorrect argv) →
      (commandline K L argv config).1 = 0) ∧
    ((commandline K L argv config).1 = 1 →
      ¬ ((commandline K L argv config).2.justResults ≠ 0 ∧
        ((commandline K L argv config).2.extendedResults ≠ 0 ∨
          (commandline K L argv config).2.showAll ≠ 0))) := by
  constructor
  · intro hj hxm
    rcases commandline_ret K L argv config with h0 | h1
    · exact h0
    · exfalso
      obtain ⟨s1, hl, hf, _⟩ := commandline_one K L argv config h1
      obtain ⟨_, _, _, hx, hm, _⟩ := commandlineFinish_one K L _ s1 hf
      unfold loopOutcome at hl
      have h2 : s1.config.justResults = 1 :=
        loop_flag K L (fun s => s.config.justResults) 'j' (fun _ _ => rfl)
          (fun c b s hc => (switch_frame K L c b s).1 hc) _ _ s1 hj hl
      rcases hxm with h | h
      · have h3 : s1.config.extendedResults = 1 :=
          loop_flag K L (fun s => s.config.extendedResults) 'x' (fun _ _ => rfl)
            (fun c b s hc => (switch_frame K L c b s).2.1 hc) _ _ s1 h hl
        exact hx ⟨by rw [h3]; decide, by rw [h2]; decide⟩
      · have h3 : s1.config.showAll = 1 :=
          loop_flag K L (fun s => s.config.showAll) 'm' (fun _ _ => rfl)
            (fun c b s hc => (switch_frame K L c b s).2.2.1 hc) _ _ s1 h hl
        exact hm ⟨by rw [h3]; decide, by rw [h2]; decide⟩
  · intro h1
    obtain ⟨s1, hl, hf, _⟩ := commandline_one K L argv config h1
    obtain ⟨_, _, _, hx, hm, _⟩ := commandlineFinish_one K L _ s1 hf
    rw [commandline_member K L argv config (fun c => c.justResults) (fun _ _ _ => rfl),
      commandline_member K L argv config (fun c => c.extendedResults) (fun _ _ _ => rfl),
      commandline_member K L argv config (fun c => c.showAll) (fun _ _ _ => rfl), hl]
    dsimp only [SwitchResult.state]
    tauto

/-- The claim C10 at `-r a.wav -c b.wav -jx`: both `-j` and `-x`, and
`commandline` returns 0. -/
theorem just_results_incompatible_witness :
    'j' ∈ optionsGiven sampleLibc.posixlyCorrect (args ["mdfourier", "-r", "a.wav", "-c", "b.wav", "-jx"]) ∧
    'x' ∈ optionsGiven sampleLibc.posixlyCorrect (args ["mdfourier", "-r", "a.wav", "-c", "b.wav", "-jx"]) ∧
    (commandline sampleConstants sampleLibc (args ["mdfourier", "-r", "a.wav", "-c", "b.wav", "-jx"])
      zeroParameters).1 = 0 :=
  ⟨by decide, by decide,
    (just_results_incompatible sampleConstants sampleLibc _ zeroParameters).1
      (by decide) (Or.inl (by decide))⟩

/-! ## The numeric options -/

theorem switch_b (K : Constants) (L : Libc) (a : List Char) (s : State) :
    commandlineSwitch K L 'b' a s =
      if (L.atof a).lt (.fin 0) || (L.atof a).gt (.fin 16) then
        .brk { s with config := { s.config with AmpBarRange := .fin K.BAR_DIFF_DB_TOLERANCE } }
      else .brk { s with config := { s.config with AmpBarRange := L.atof a } } := rfl

theorem switch_p (K : Constants) (L : Libc) (a : List Char) (s : State) :
    commandlineSwitch K L 'p' a s =
      if (L.atof a).le (.fin (-120)) || (L.atof a).ge (.fin (-1)) then
        .brk { s with config := { s.config with
          significantAmplitude := .fin K.SIGNIFICANT_VOLUME
          origSignificantAmplitude := .fin K.SIGNIFICANT_VOLUME } }
      else .brk { s with config := { s.config with
          significantAmplitude := L.atof a
          origSignificantAmplitude := L.atof a } } := by
  have h : commandlineSwitch K L 'p' a s =
      .brk { s with config :=
        { (if (L.atof a).le (.fin (-120)) || (L.atof a).ge (.fin (-1)) then
            { s.config with significantAmplitude := .fin K.SIGNIFICANT_VOLUME }
          else { s.config with significantAmplitude := L.atof a }) with
          origSignificantAmplitude :=
            (if (L.atof a).le (.fin (-120)) || (L.atof a).ge (.fin (-1)) then
              { s.config with significantAmplitude := .fin K.SIGNIFICANT_VOLUME }
            else { s.config with significantAmplitude := L.atof a }).significantAmplitude } } :=
    rfl
  rw [h]
  split_ifs <;> rfl

theorem switch_s (K : Constants) (L : Libc) (a : List Char) (s : State) :
    commandlineSwitch K L 's' a s =
      if (L.atof a).lt (.fin 1) || (L.atof a).gt (.fin (K.END_HZ - 100)) then
        .brk { s with config := { s.config with startHz := .fin K.START_HZ } }
      else .brk { s with config := { s.config with startHz := L.atof a } } := rfl

theorem switch_e (K : Constants) (L : Libc) (a : List Char) (s : State) :
    ∃ s1, commandlineSwitch K L 'e' a s = .brk s1 ∧
      s1.config.endHz =
        (if (if (L.atof a).lt (.fin (K.START_HZ * 2)) then CDouble.fin K.END_HZ
            else L.atof a).gt (.fin K.MAX_HZ) then CDouble.fin K.MAX_HZ
          else if (L.atof a).lt (.fin (K.START_HZ * 2)) then CDouble.fin K.END_HZ
            else L.atof a) ∧
      s1.config.endHzPlot =
        (if s1.config.endHz.gt (.fin K.END_HZ) then s1.config.endHz else s.config.endHzPlot) := by
  have h : commandlineSwitch K L 'e' a s =
      (let c1 := { s.config with endHz := L.atof a }
       let c2 := if c1.endHz.lt (.fin (K.START_HZ * 2)) then { c1 with endHz := .fin K.END_HZ }
         else c1
       let c3 := if c2.endHz.gt (.fin K.MAX_HZ) then { c2 with endHz := .fin K.MAX_HZ } else c2
       let c4 := if c3.endHz.gt (.fin K.END_HZ) then { c3 with endHzPlot := c3.endHz } else c3
       SwitchResult.brk { s with config := c4 }) := rfl
  rw [h]
  refine ⟨_, rfl, ?_, ?_⟩
  · dsimp only
    split_ifs <;> rfl
  · dsimp only
    split_ifs <;> rfl

/-- A NaN returned by `atof` passes the range checks of `-b`, `-p`, `-e` and
`-s`: the member keeps the NaN. -/
theorem nan_passes_range_checks (K : Constants) (L : Libc) (a : List Char) (s : State)
    (h : L.atof a = .nan) :
    (commandlineSwitch K L 'b' a s).state.config.AmpBarRange = .nan ∧
    (commandlineSwitch K L 'p' a s).state.config.significantAmplitude = .nan ∧
    (commandlineSwitch K L 'e' a s).state.config.endHz = .nan ∧
    (commandlineSwitch K L 's' a s).state.config.startHz = .nan := by
  refine ⟨?_, ?_, ?_, ?_⟩
  · rw [switch_b, h]
    rfl
  · rw [switch_p, h]
    rfl
  · obtain ⟨s1, h1, h2, _⟩ := switch_e K L a s
    rw [h1]
    dsimp only [SwitchResult.state]
    rw [h2, h]
    rfl
  · rw [switch_s, h]
    rfl

/-- Between two doubles that are not NaN, `a < b` holds when `b <= a` does
not. -/
theorem CDouble.lt_of_le_eq_false (a b : CDouble) (ha : a ≠ .nan) (hb : b ≠ .nan)
    (h : b.le a = false) : a.lt b = true := by
  cases a <;> cases b <;> simp_all [CDouble.le, CDouble.lt]

/-- What holds of the frequency range when `commandline` returns 1: the
comparison `endHz <= startHz` is false, and `startHz < endHz` is true as soon
as neither is a NaN. -/
theorem range_checked (K : Constants) (L : Libc) (argv : List (List Char))
    (config : parameters) (h : (commandline K L argv config).1 = 1) :
    (commandline K L argv config).2.endHz.le (commandline K L argv config).2.startHz = false ∧
    ((commandline K L argv config).2.startHz ≠ .nan →
      (commandline K L argv config).2.endHz ≠ .nan →
      (commandline K L argv config).2.startHz.lt (commandline K L argv config).2.endHz = true) := by
  obtain ⟨s1, hl, hf, _⟩ := commandline_one K L argv config h
  obtain ⟨_, _, _, _, _, hle⟩ := commandlineFinish_one K L _ s1 hf
  have he := commandline_member K L argv config (fun c => c.endHz) (fun _ _ _ => rfl)
  have hs := commandline_member K L argv config (fun c => c.startHz) (fun _ _ _ => rfl)
  rw [hl] at he hs
  dsimp only [SwitchResult.state] at he hs
  rw [he, hs]
  exact ⟨hle, fun h1 h2 => CDouble.lt_of_le_eq_false _ _ h1 h2 hle⟩

/-- C1, at the command line `-r a.wav -c b.wav -s nan`: the start frequency
is the NaN that `atof` returns, it passes the range check of `-s` and the
check `endHz <= startHz`, and `commandline` returns 1 although
`startHz < endHz` is false. -/
theorem nan_start_frequency_accepted :
    sampleLibc.atof "nan".toList = .nan ∧
    (commandline sampleConstants sampleLibc
      (args ["mdfourier", "-r", "a.wav", "-c", "b.wav", "-s", "nan"]) zeroParameters).1 = 1 ∧
    (commandline sampleConstants sampleLibc
      (args ["mdfourier", "-r", "a.wav", "-c", "b.wav", "-s", "nan"]) zeroParameters).2.startHz
        = .nan ∧
    (commandline sampleConstants sampleLibc
      (args ["mdfourier", "-r", "a.wav", "-c", "b.wav", "-s", "nan"]) zeroParameters).2.startHz.lt
      (commandline sampleConstants sampleLibc
        (args ["mdfourier", "-r", "a.wav", "-c", "b.wav", "-s", "nan"]) zeroParameters).2.endHz
        = false := by
  decide
/-- What `-b` stores when `atof` does not return a NaN: the value given
when it lies in [0, 16], the default otherwise. -/
theorem bar_option_not_nan (K : Constants) (L : Libc) (a : List Char) (s : State)
    (hx : L.atof a ≠ .nan) :
    (commandlineSwitch K L 'b' a s).state.config.AmpBarRange =
      if CDouble.le (.fin 0) (L.atof a) && (L.atof a).le (.fin 16) then L.atof a
      else .fin K.BAR_DIFF_DB_TOLERANCE := by
  rw [switch_b]
  cases hv : L.atof a with
  | nan => exact absurd hv hx
  | negInf => simp [CDouble.lt, CDouble.gt, CDouble.le, SwitchResult.state]
  | posInf => simp [CDouble.lt, CDouble.gt, CDouble.le, SwitchResult.state]
  | fin q =>
    by_cases h1 : q < 0
    · have h2 : ¬ (0 ≤ q) := not_le.mpr h1
      simp [CDouble.lt, CDouble.gt, CDouble.le, SwitchResult.state, h1, h2]
    · by_cases h3 : 16 < q
      · have h4 : ¬ (q ≤ 16) := not_le.mpr h3
        simp [CDouble.lt, CDouble.gt, CDouble.le, SwitchResult.state, h3, h4]
      · have h2 : 0 ≤ q := not_lt.mp h1
        have h4 : q ≤ 16 := not_lt.mp h3
        simp [CDouble.lt, CDouble.gt, CDouble.le, SwitchResult.state, h1, h2, h3, h4]

/-- C6, at the command line `-r a.wav -c b.wav -b nan`: the bar tolerance is
the NaN that `atof` returns; it passes the range check of `-b`, is not reset
to the default and does not lie in [0, 16], and `commandline` returns 1. -/
theorem nan_bar_tolerance_accepted :
    sampleLibc.atof "nan".toList = .nan ∧
    (commandline sampleConstants sampleLibc
      (args ["mdfourier", "-r", "a.wav", "-c", "b.wav", "-b", "nan"]) zeroParameters).1 = 1 ∧
    (commandline sampleConstants sampleLibc
      (args ["mdfourier", "-r", "a.wav", "-c", "b.wav", "-b", "nan"]) zeroParameters).2.AmpBarRange
        = .nan ∧
    CDouble.le (.fin 0) (commandline sampleConstants sampleLibc
      (args ["mdfourier", "-r", "a.wav", "-c", "b.wav", "-b", "nan"]) zeroParameters).2.AmpBarRange
        = false := by
  decide

/-- What `-p` stores when `atof` does not return a NaN: the value given
when it lies strictly between -120 and -1, the default otherwise; and the
original significant amplitude is the same value. -/
theorem significant_option_not_nan (K : Constants) (L : Libc) (a : List Char) (s : State)
    (hx : L.atof a ≠ .nan) :
    (commandlineSwitch K L 'p' a s).state.config.significantAmplitude =
      (if CDouble.lt (.fin (-120)) (L.atof a) && (L.atof a).lt (.fin (-1)) then L.atof a
      else .fin K.SIGNIFICANT_VOLUME) ∧
    (commandlineSwitch K L 'p' a s).state.config.origSignificantAmplitude =
      (commandlineSwitch K L 'p' a s).state.config.significantAmplitude := by
  rw [switch_p]
  cases hv : L.atof a with
  | nan => exact absurd hv hx
  | negInf => simp [CDouble.lt, CDouble.ge, CDouble.le, SwitchResult.state]
  | posInf => simp [CDouble.lt, CDouble.ge, CDouble.le, SwitchResult.state]
  | fin q =>
    by_cases h1 : q ≤ -120
    · have h2 : ¬ (-120 < q) := not_lt.mpr h1
      simp [CDouble.lt, CDouble.ge, CDouble.le, SwitchResult.state, h1, h2]
    · by_cases h3 : -1 ≤ q
      · have h4 : ¬ (q < -1) := not_lt.mpr h3
        simp [CDouble.lt, CDouble.ge, CDouble.le, SwitchResult.state, h3, h4]
      · have h2 : -120 < q := not_le.mp h1
        have h4 : q < -1 := not_le.mp h3
        simp [CDouble.lt, CDouble.ge, CDouble.le, SwitchResult.state, h1, h2, h3, h4]

/-- The two significant amplitudes hold the same value on every return of
`commandline`. -/
theorem significant_amplitudes_agree (K : Constants) (L : Libc) (argv : List (List Char))
    (config : parameters) :
    (commandline K L argv config).2.origSignificantAmplitude =
      (commandline K L argv config).2.significantAmplitude := by
  rw [commandline_member K L argv config (fun c => c.origSignificantAmplitude)
      (fun _ _ _ => rfl),
    commandline_member K L argv config (fun c => c.significantAmplitude) (fun _ _ _ => rfl)]
  refine loop_invariant K L
    (fun s => s.config.origSignificantAmplitude = s.config.significantAmplitude) ?_ _ _ rfl
  intro c b s hs
  by_cases hc : c = 'p'
  · subst hc
    rw [switch_p]
    split_ifs <;> rfl
  · dsimp only
    rw [(switch_frame K L c b s).2.2.2.2.2.2.2.2.2.2.1 hc,
      (switch_frame K L c b s).2.2.2.2.2.2.2.2.2.1 hc]
    exact hs

/-- C7, at the command line `-r a.wav -c b.wav -p nan`: the significant
amplitude is the NaN that `atof` returns; it passes the range check of `-p`
and is not reset to the default `SIGNIFICANT_VOLUME`, and `commandline`
returns 1. -/
theorem nan_significant_amplitude_accepted :
    sampleLibc.atof "nan".toList = .nan ∧
    (commandline sampleConstants sampleLibc
      (args ["mdfourier", "-r", "a.wav", "-c", "b.wav", "-p", "nan"]) zeroParameters).1 = 1 ∧
    (commandline sampleConstants sampleLibc
      (args ["mdfourier", "-r", "a.wav", "-c", "b.wav", "-p", "nan"])
        zeroParameters).2.significantAmplitude = .nan ∧
    (commandline sampleConstants sampleLibc
      (args ["mdfourier", "-r", "a.wav", "-c", "b.wav", "-p", "nan"])
        zeroParameters).2.significantAmplitude ≠ .fin sampleConstants.SIGNIFICANT_VOLUME := by
  decide

/-- What `-e` stores when `atof` does not return a NaN and the constants
satisfy `2*START_HZ <= END_HZ <= MAX_HZ`: the value given when it lies in
`[2*START_HZ, MAX_HZ]`, `END_HZ` when it is below and `MAX_HZ` when it is
above; `endHzPlot` takes the new `endHz` when that exceeds `END_HZ`, and is
not written otherwise. -/
theorem end_option_not_nan (K : Constants) (L : Libc) (a : List Char) (s : State)
    (hK1 : K.START_HZ * 2 ≤ K.END_HZ) (hK2 : K.END_HZ ≤ K.MAX_HZ) (hx : L.atof a ≠ .nan) :
    (commandlineSwitch K L 'e' a s).state.config.endHz =
      (if (L.atof a).lt (.fin (K.START_HZ * 2)) then .fin K.END_HZ
        else if (L.atof a).gt (.fin K.MAX_HZ) then .fin K.MAX_HZ
        else L.atof a) ∧
    CDouble.le (.fin (K.START_HZ * 2)) (commandlineSwitch K L 'e' a s).state.config.endHz
      = true ∧
    (commandlineSwitch K L 'e' a s).state.config.endHz.le (.fin K.MAX_HZ) = true ∧
    (commandlineSwitch K L 'e' a s).state.config.endHzPlot =
      (if (commandlineSwitch K L 'e' a s).state.config.endHz.gt (.fin K.END_HZ) then
        (commandlineSwitch K L 'e' a s).state.config.endHz
      else s.config.endHzPlot) := by
  obtain ⟨s1, h1, h2, h3⟩ := switch_e K L a s
  rw [h1]
  dsimp only [SwitchResult.state]
  have h4 : s1.config.endHz =
      (if (L.atof a).lt (.fin (K.START_HZ * 2)) then .fin K.END_HZ
        else if (L.atof a).gt (.fin K.MAX_HZ) then .fin K.MAX_HZ
        else L.atof a) := by
    rw [h2]
    by_cases hc : (L.atof a).lt (.fin (K.START_HZ * 2)) = true
    · have h7 : (CDouble.fin K.END_HZ).gt (.fin K.MAX_HZ) = false := by
        simp [CDouble.gt, CDouble.lt, hK2]
      rw [if_pos hc, if_pos hc, h7]
      simp
    · rw [if_neg hc, if_neg hc]
  refine ⟨h4, ?_, ?_, h3⟩
  · rw [h4]
    cases hv : L.atof a with
    | nan => exact absurd hv hx
    | negInf => simp [CDouble.lt, CDouble.gt, CDouble.le, hK1]
    | posInf => simp [CDouble.lt, CDouble.gt, CDouble.le, hK1.trans hK2]
    | fin q =>
      by_cases h5 : q < K.START_HZ * 2
      · simp [CDouble.lt, CDouble.gt, CDouble.le, h5, hK1]
      · by_cases h6 : K.MAX_HZ < q
        · simp [CDouble.lt, CDouble.gt, CDouble.le, h5, h6, hK1.trans hK2]
        · simp [CDouble.lt, CDouble.gt, CDouble.le, h5, h6, not_lt.mp h5]
  · rw [h4]
    cases hv : L.atof a with
    | nan => exact absurd hv hx
    | negInf => simp [CDouble.lt, CDouble.gt, CDouble.le, hK2]
    | posInf => simp [CDouble.lt, CDouble.gt, CDouble.le]
    | fin q =>
      by_cases h5 : q < K.START_HZ * 2
      · simp [CDouble.lt, CDouble.gt, CDouble.le, h5, hK2]
      · by_cases h6 : K.MAX_HZ < q
        · simp [CDouble.lt, CDouble.gt, CDouble.le, h5, h6]
        · simp [CDouble.lt, CDouble.gt, CDouble.le, h5, h6, not_lt.mp h6]

/-- C8, at the command line `-r a.wav -c b.wav -e nan`: the end frequency is
the NaN that `atof` returns; it passes both range checks of `-e`, so `endHz`
is neither the value of an interval `[2*START_HZ, MAX_HZ]` nor `END_HZ` nor
`MAX_HZ`, and `commandline` returns 1. -/
theorem nan_end_frequency_accepted :
    sampleLibc.atof "nan".toList = .nan ∧
    (commandline sampleConstants sampleLibc
      (args ["mdfourier", "-r", "a.wav", "-c", "b.wav", "-e", "nan"]) zeroParameters).1 = 1 ∧
    (commandline sampleConstants sampleLibc
      (args ["mdfourier", "-r", "a.wav", "-c", "b.wav", "-e", "nan"]) zeroParameters).2.endHz
        = .nan ∧
    (commandline sampleConstants sampleLibc
      (args ["mdfourier", "-r", "a.wav", "-c", "b.wav", "-e", "nan"])
        zeroParameters).2.endHz.le (.fin sampleConstants.MAX_HZ) = false := by
  decide

/-! ## Options that latch a member -/

/-- A member that the option `ch` sets to `v`, and that no option changes
once it is `v`, is `v` when the loop runs to its end with `ch` among the
options. -/
theorem loop_latch {α : Type} (K : Constants) (L : Libc) (f : State → α) (ch : Char) (v : α)
    (hset : ∀ a s, f (commandlineSwitch K L ch a s).state = v)
    (hkeep : ∀ c a s, f s = v → f (commandlineSwitch K L c a s).state = v) :
    ∀ (items : List GetoptItem) (s s2 : State), ch ∈ items.map (fun it => it.code.1) →
      commandlineLoop K L items s = .brk s2 → f s2 = v := by
  intro items
  induction items with
  | nil => intro s s2 h; simp at h
  | cons it items ih =>
    intro s s2 h hl
    rw [commandlineLoop_cons] at hl
    cases hsw : commandlineSwitch K L it.code.1 it.code.2 s with
    | ret0 s1 => rw [hsw] at hl; dsimp only at hl; cases hl
    | brk s1 =>
      rw [hsw] at hl
      dsimp only at hl
      rw [List.map_cons, List.mem_cons] at h
      rcases h with h | h
      · have h4 := hset it.code.2 s
        rw [h, hsw] at h4
        have h5 := loop_invariant K L (fun t => f t = v) hkeep items s1 h4
        rw [hl] at h5
        exact h5
      · exact ih s1 s2 h hl

theorem isBrk_eq_true (r : SwitchResult) (h : r.isBrk = true) : ∃ s1, r = .brk s1 := by
  cases r with
  | brk s1 => exact ⟨s1, rfl⟩
  | ret0 s1 => cases h

/-! ## The average plot options, the video formats and the plot resolution -/

theorem frame_video_average_resolution (K : Constants) (L : Libc) (c : Char) (a : List Char)
    (s : State) :
    (c ≠ 'Y' → (commandlineSwitch K L c a s).state.config.videoFormatRef
        = s.config.videoFormatRef) ∧
    (c ≠ 'Z' → (commandlineSwitch K L c a s).state.config.videoFormatCom
        = s.config.videoFormatCom) ∧
    (c ≠ 'A' → (commandlineSwitch K L c a s).state.config.weightedAveragePlot
        = s.config.weightedAveragePlot) ∧
    (c ≠ 'L' → (commandlineSwitch K L c a s).state.config.plotResX = s.config.plotResX) ∧
    (c ≠ 'L' → (commandlineSwitch K L c a s).state.config.plotResY = s.config.plotResY) ∧
    (c ≠ 'A' ∧ c ≠ 'g' →
      (commandlineSwitch K L c a s).state.config.averagePlot = s.config.averagePlot) := by
  obtain ⟨-, -, -, -, -, -, -, -, -, -, -, -, -, -, h15, h16, h17, -, h19, h20, h21⟩ :=
    switch_frame K L c a s
  exact ⟨h15, h16, h17, h19, h20, h21⟩

theorem switch_A (K : Constants) (L : Libc) (a : List Char) (s : State) :
    commandlineSwitch K L 'A' a s =
      .brk { s with config := { s.config with averagePlot := 1, weightedAveragePlot := 0 } } :=
  rfl

theorem switch_g (K : Constants) (L : Libc) (a : List Char) (s : State) :
    commandlineSwitch K L 'g' a s =
      .brk { s with config := { s.config with averagePlot := 1 } } := rfl

theorem averagePlot_kept (K : Constants) (L : Libc) (c : Char) (a : List Char) (s : State)
    (h : s.config.averagePlot = 1) :
    (commandlineSwitch K L c a s).state.config.averagePlot = 1 := by
  by_cases hA : c = 'A'
  · subst hA; rfl
  · by_cases hg : c = 'g'
    · subst hg; rfl
    · rw [(frame_video_average_resolution K L c a s).2.2.2.2.2 ⟨hA, hg⟩]
      exact h

theorem weightedAveragePlot_kept (K : Constants) (L : Libc) (c : Char) (a : List Char)
    (s : State) (h : s.config.weightedAveragePlot = 0) :
    (commandlineSwitch K L c a s).state.config.weightedAveragePlot = 0 := by
  by_cases hA : c = 'A'
  · subst hA; rfl
  · rw [(frame_video_average_resolution K L c a s).2.2.1 hA]
    exact h

/-- When the option loop of `commandline` runs to its end (no option
makes it return 0, as in every run that returns 1), then with `-A` among the options the configuration has
`averagePlot = 1` and `weightedAveragePlot = 0`, whether or not `-g` is given
and in whichever order; with `-g` and without `-A` it has `averagePlot = 1`
and `weightedAveragePlot` at its default 1. -/
theorem average_plot_of_complete_loop (K : Constants) (L : Libc) (argv : List (List Char))
    (config : parameters) (hrun : (loopOutcome K L argv config).isBrk = true) :
    ('A' ∈ optionsGiven L.posixlyCorrect argv →
      (commandline K L argv config).2.averagePlot = 1 ∧
      (commandline K L argv config).2.weightedAveragePlot = 0) ∧
    ('g' ∈ optionsGiven L.posixlyCorrect argv → 'A' ∉ optionsGiven L.posixlyCorrect argv →
      (commandline K L argv config).2.averagePlot = 1 ∧
      (commandline K L argv config).2.weightedAveragePlot = 1) := by
  obtain ⟨s1, hl⟩ := isBrk_eq_true _ hrun
  rw [commandline_member K L argv config (fun c => c.averagePlot) (fun _ _ _ => rfl),
    commandline_member K L argv config (fun c => c.weightedAveragePlot) (fun _ _ _ => rfl), hl]
  dsimp only [SwitchResult.state]
  unfold loopOutcome at hl
  constructor
  · intro hA
    exact ⟨loop_latch K L (fun s => s.config.averagePlot) 'A' 1 (fun _ _ => rfl)
        (averagePlot_kept K L) _ _ s1 hA hl,
      loop_latch K L (fun s => s.config.weightedAveragePlot) 'A' 0 (fun _ _ => rfl)
        (weightedAveragePlot_kept K L) _ _ s1 hA hl⟩
  · intro hg hA
    refine ⟨loop_latch K L (fun s => s.config.averagePlot) 'g' 1 (fun _ _ => rfl)
        (averagePlot_kept K L) _ _ s1 hg hl, ?_⟩
    have h2 := loop_frame K L (fun s => s.config.weightedAveragePlot) 'A'
      (fun c b s hc => (frame_video_average_resolution K L c b s).2.2.1 hc) _
      (initialState K config) hA
    rw [hl] at h2
    exact h2

/-- C12, as it holds: when the option loop of `commandline` reaches a `-A`
(no option before it makes `commandline` return 0), the configuration on
return has `averagePlot = 1` and `weightedAveragePlot = 0`, whether or not
`-g` is given and in whichever order; when the loop reaches a `-g` and `-A` is
not among the options, it has `averagePlot = 1` and `weightedAveragePlot` at
its default 1. -/
theorem average_plot_options (K : Constants) (L : Libc) (argv : List (List Char))
    (config : parameters) (pre post : List GetoptItem) (b : List Char)
    (hpre : (commandlineLoop K L pre (initialState K config)).isBrk = true) :
    ((getoptAll L.posixlyCorrect argv).1 = pre ++ .opt 'A' b :: post →
      (commandline K L argv config).2.averagePlot = 1 ∧
      (commandline K L argv config).2.weightedAveragePlot = 0) ∧
    ((getoptAll L.posixlyCorrect argv).1 = pre ++ .opt 'g' b :: post →
      'A' ∉ optionsGiven L.posixlyCorrect argv →
      (commandline K L argv config).2.averagePlot = 1 ∧
      (commandline K L argv config).2.weightedAveragePlot = 1) := by
  rw [commandline_member K L argv config (fun c => c.averagePlot) (fun _ _ _ => rfl),
    commandline_member K L argv config (fun c => c.weightedAveragePlot) (fun _ _ _ => rfl)]
  unfold loopOutcome
  constructor
  · intro hitems
    rw [hitems]
    exact ⟨loop_latch_reached K L (fun s => s.config.averagePlot) 'A' 1 (fun _ _ => rfl)
        (averagePlot_kept K L) pre post b _ hpre,
      loop_latch_reached K L (fun s => s.config.weightedAveragePlot) 'A' 0 (fun _ _ => rfl)
        (weightedAveragePlot_kept K L) pre post b _ hpre⟩
  · intro hitems hA
    refine ⟨?_, ?_⟩
    · rw [hitems]
      exact loop_latch_reached K L (fun s => s.config.averagePlot) 'g' 1 (fun _ _ => rfl)
        (averagePlot_kept K L) pre post b _ hpre
    · exact loop_frame K L (fun s => s.config.weightedAveragePlot) 'A'
        (fun c d s hc => (frame_video_average_resolution K L c d s).2.2.1 hc) _
        (initialState K config) hA

/-- The claim C12 as it holds, at `-r a.wav -c b.wav -g -A`: the loop reaches
`-A` after `-r`, `-c` and `-g`, and the plot is averaged and not weighted; and
at `-r a.wav -c b.wav -g`: the loop reaches `-g`, there is no `-A`, and the
plot is averaged and weighted. -/
theorem average_plot_options_witness :
    ((commandlineLoop sampleConstants sampleLibc
        [.opt 'r' "a.wav".toList, .opt 'c' "b.wav".toList, .opt 'g' []]
        (initialState sampleConstants zeroParameters)).isBrk = true ∧
      (getoptAll sampleLibc.posixlyCorrect
        (args ["mdfourier", "-r", "a.wav", "-c", "b.wav", "-g", "-A"])).1 =
        [.opt 'r' "a.wav".toList, .opt 'c' "b.wav".toList, .opt 'g' []] ++ .opt 'A' [] :: [] ∧
      (commandline sampleConstants sampleLibc
        (args ["mdfourier", "-r", "a.wav", "-c", "b.wav", "-g", "-A"])
          zeroParameters).2.averagePlot = 1 ∧
      (commandline sampleConstants sampleLibc
        (args ["mdfourier", "-r", "a.wav", "-c", "b.wav", "-g", "-A"])
          zeroParameters).2.weightedAveragePlot = 0) ∧
    ((commandlineLoop sampleConstants sampleLibc
        [.opt 'r' "a.wav".toList, .opt 'c' "b.wav".toList]
        (initialState sampleConstants zeroParameters)).isBrk = true ∧
      (getoptAll sampleLibc.posixlyCorrect
        (args ["mdfourier", "-r", "a.wav", "-c", "b.wav", "-g"])).1 =
        [.opt 'r' "a.wav".toList, .opt 'c' "b.wav".toList] ++ .opt 'g' [] :: [] ∧
      'A' ∉ optionsGiven sampleLibc.posixlyCorrect
        (args ["mdfourier", "-r", "a.wav", "-c", "b.wav", "-g"]) ∧
      (commandline sampleConstants sampleLibc
        (args ["mdfourier", "-r", "a.wav", "-c", "b.wav", "-g"])
          zeroParameters).2.averagePlot = 1 ∧
      (commandline sampleConstants sampleLibc
        (args ["mdfourier", "-r", "a.wav", "-c", "b.wav", "-g"])
          zeroParameters).2.weightedAveragePlot = 1) :=
  ⟨⟨by decide, by decide,
      (average_plot_options sampleConstants sampleLibc
        (args ["mdfourier", "-r", "a.wav", "-c", "b.wav", "-g", "-A"]) zeroParameters
        [.opt 'r' "a.wav".toList, .opt 'c' "b.wav".toList, .opt 'g' []] [] []
        (by decide)).1 (by decide)⟩,
    ⟨by decide, by decide, by decide,
      (average_plot_options sampleConstants sampleLibc
        (args ["mdfourier", "-r", "a.wav", "-c", "b.wav", "-g"]) zeroParameters
        [.opt 'r' "a.wav".toList, .opt 'c' "b.wav".toList] [] []
        (by decide)).2 (by decide) (by decide)⟩⟩

/-- C12 as it is written fails: at `-r a.wav -c b.wav -w x -A` the option
`-A` is on the command line, but `commandline` returns 0 at `-w x` before
reading it, and the configuration has `averagePlot = 0` and
`weightedAveragePlot = 1`; at `-h -g` the option `-g` is on the command line
without `-A`, `commandline` returns 0 at `-h`, and `averagePlot` is 0. -/
theorem average_plot_options_counterexample :
    ('A' ∈ optionsGiven sampleLibc.posixlyCorrect
        (args ["mdfourier", "-r", "a.wav", "-c", "b.wav", "-w", "x", "-A"]) ∧
      (commandline sampleConstants sampleLibc
        (args ["mdfourier", "-r", "a.wav", "-c", "b.wav", "-w", "x", "-A"])
          zeroParameters).1 = 0 ∧
      (commandline sampleConstants sampleLibc
        (args ["mdfourier", "-r", "a.wav", "-c", "b.wav", "-w", "x", "-A"])
          zeroParameters).2.averagePlot = 0 ∧
      (commandline sampleConstants sampleLibc
        (args ["mdfourier", "-r", "a.wav", "-c", "b.wav", "-w", "x", "-A"])
          zeroParameters).2.weightedAveragePlot = 1) ∧
    ('g' ∈ optionsGiven sampleLibc.posixlyCorrect (args ["mdfourier", "-h", "-g"]) ∧
      'A' ∉ optionsGiven sampleLibc.posixlyCorrect (args ["mdfourier", "-h", "-g"]) ∧
      (commandline sampleConstants sampleLibc (args ["mdfourier", "-h", "-g"])
        zeroParameters).1 = 0 ∧
      (commandline sampleConstants sampleLibc (args ["mdfourier", "-h", "-g"])
        zeroParameters).2.averagePlot = 0) := by
  decide

theorem switch_Y (K : Constants) (L : Libc) (a : List Char) (s : State) :
    commandlineSwitch K L 'Y' a s =
      if L.atoi a < 0 ∨ L.atoi a > K.MAX_SYNC then
        .ret0 { s with config := { s.config with videoFormatRef := L.atoi a } }
      else .brk { s with config := { s.config with videoFormatRef := L.atoi a } } := rfl

theorem switch_Z (K : Constants) (L : Libc) (a : List Char) (s : State) :
    commandlineSwitch K L 'Z' a s =
      if s.config.videoFormatRef < 0 ∨ s.config.videoFormatRef > K.MAX_SYNC then
        .ret0 { s with config := { s.config with videoFormatCom := L.atoi a } }
      else .brk { s with config := { s.config with videoFormatCom := L.atoi a } } := rfl

/-- The check of `-Z` reads the reference format: with a reference format
in range every value of `-Z` is stored and the loop goes on, while `-Y`
returns 0 for a value below 0 or above `MAX_SYNC`. -/
theorem comparison_format_unchecked (K : Constants) (L : Libc) (a : List Char) (s : State)
    (h0 : 0 ≤ s.config.videoFormatRef) (h1 : s.config.videoFormatRef ≤ K.MAX_SYNC) :
    commandlineSwitch K L 'Z' a s =
      .brk { s with config := { s.config with videoFormatCom := L.atoi a } } ∧
    (L.atoi a < 0 ∨ L.atoi a > K.MAX_SYNC →
      commandlineSwitch K L 'Y' a s =
        .ret0 { s with config := { s.config with videoFormatRef := L.atoi a } }) := by
  constructor
  · rw [switch_Z, if_neg]
    intro h
    rcases h with h | h
    · exact absurd h0 (not_le.mpr h)
    · exact absurd h1 (not_le.mpr h)
  · intro h
    rw [switch_Y, if_pos h]

/-- C11, at the command lines `-r a.wav -c b.wav -Z -1` and
`-r a.wav -c b.wav -Z 99` (with `MAX_SYNC` 10): the check of `-Z` reads
`videoFormatRef`, which is 0, so `commandline` returns 1 with
`videoFormatCom` -1, respectively 99; the same values given to `-Y` make it
return 0. -/
theorem comparison_format_out_of_range_accepted :
    sampleConstants.MAX_SYNC = 10 ∧
    (commandline sampleConstants sampleLibc
      (args ["mdfourier", "-r", "a.wav", "-c", "b.wav", "-Z", "-1"]) zeroParameters).1 = 1 ∧
    (commandline sampleConstants sampleLibc
      (args ["mdfourier", "-r", "a.wav", "-c", "b.wav", "-Z", "-1"])
        zeroParameters).2.videoFormatCom = -1 ∧
    (commandline sampleConstants sampleLibc
      (args ["mdfourier", "-r", "a.wav", "-c", "b.wav", "-Z", "99"]) zeroParameters).1 = 1 ∧
    (commandline sampleConstants sampleLibc
      (args ["mdfourier", "-r", "a.wav", "-c", "b.wav", "-Z", "99"])
        zeroParameters).2.videoFormatCom = 99 ∧
    (commandline sampleConstants sampleLibc
      (args ["mdfourier", "-r", "a.wav", "-c", "b.wav", "-Y", "-1"]) zeroParameters).1 = 0 ∧
    (commandline sampleConstants sampleLibc
      (args ["mdfourier", "-r", "a.wav", "-c", "b.wav", "-Y", "99"]) zeroParameters).1 = 0 := by
  decide

theorem switch_H (K : Constants) (L : Libc) (a : List Char) (s : State) :
    commandlineSwitch K L 'H' a s =
      .brk { s with config := { s.config with plotTimeDomainHiDiff := 1 } } := rfl

theorem switch_L_4 (K : Constants) (L : Libc) (a : List Char) (s : State)
    (h : L.atoi a = 4) :
    commandlineSwitch K L 'L' a s =
      .brk { s with config := { s.config with
        plotResX := K.PLOT_RES_X_HI, plotResY := K.PLOT_RES_Y_HI } } := by
  have h1 : commandlineSwitch K L 'L' a s =
      if L.atoi a = 1 then
        .brk { s with config := { s.config with
          plotResX := K.PLOT_RES_X_LOW, plotResY := K.PLOT_RES_Y_LOW, showPercent := 0 } }
      else if L.atoi a = 2 then
        .brk { s with config := { s.config with
          plotResX := K.PLOT_RES_X, plotResY := K.PLOT_RES_Y } }
      else if L.atoi a = 3 then
        .brk { s with config := { s.config with
          plotResX := K.PLOT_RES_X_1K, plotResY := K.PLOT_RES_Y_1K } }
      else if L.atoi a = 4 then
        .brk { s with config := { s.config with
          plotResX := K.PLOT_RES_X_HI, plotResY := K.PLOT_RES_Y_HI } }
      else if L.atoi a = 5 then
        .brk { s with config := { s.config with
          plotResX := K.PLOT_RES_X_4K, plotResY := K.PLOT_RES_Y_4K } }
      else if L.atoi a = 6 then
        .brk { s with config := { s.config with
          plotResX := K.PLOT_RES_X_FP, plotResY := K.PLOT_RES_Y_FP } }
      else .brk s := rfl
  rw [h1, h]
  rfl

/-- The plot resolution is written by `-L` only: without `-L` among the
options it is the default `PLOT_RES_X` by `PLOT_RES_Y` on return, with or
without `-H`; and `-L 4` is the option that stores `PLOT_RES_X_HI` by
`PLOT_RES_Y_HI`. -/
theorem resolution_from_L_only (K : Constants) (L : Libc) (argv : List (List Char))
    (config : parameters) (h : 'L' ∉ optionsGiven L.posixlyCorrect argv) :
    (commandline K L argv config).2.plotResX = K.PLOT_RES_X ∧
    (commandline K L argv config).2.plotResY = K.PLOT_RES_Y := by
  rw [commandline_member K L argv config (fun c => c.plotResX) (fun _ _ _ => rfl),
    commandline_member K L argv config (fun c => c.plotResY) (fun _ _ _ => rfl)]
  exact ⟨loop_frame K L (fun s => s.config.plotResX) 'L'
      (fun c b s hc => (frame_video_average_resolution K L c b s).2.2.2.1 hc) _
      (initialState K config) h,
    loop_frame K L (fun s => s.config.plotResY) 'L'
      (fun c b s hc => (frame_video_average_resolution K L c b s).2.2.2.2.1 hc) _
      (initialState K config) h⟩

/-- C13, at the command line `-r a.wav -c b.wav -H` (default resolution
1600 by 800, high resolution 1920 by 1080): `commandline` returns 1, `-H` has
set `plotTimeDomainHiDiff`, and the plot resolution is still the default, not
1920 by 1080; the command line `-r a.wav -c b.wav -L 4` is the one that gives
1920 by 1080. -/
theorem hi_option_keeps_default_resolution :
    (sampleConstants.PLOT_RES_X, sampleConstants.PLOT_RES_Y) = (1600, 800) ∧
    (sampleConstants.PLOT_RES_X_HI, sampleConstants.PLOT_RES_Y_HI) = (1920, 1080) ∧
    'H' ∈ optionsGiven sampleLibc.posixlyCorrect
      (args ["mdfourier", "-r", "a.wav", "-c", "b.wav", "-H"]) ∧
    (commandline sampleConstants sampleLibc
      (args ["mdfourier", "-r", "a.wav", "-c", "b.wav", "-H"]) zeroParameters).1 = 1 ∧
    (commandline sampleConstants sampleLibc
      (args ["mdfourier", "-r", "a.wav", "-c", "b.wav", "-H"]) zeroParameters).2.plotResX
        = 1600 ∧
    (commandline sampleConstants sampleLibc
      (args ["mdfourier", "-r", "a.wav", "-c", "b.wav", "-H"]) zeroParameters).2.plotResY
        = 800 ∧
    (commandline sampleConstants sampleLibc
      (args ["mdfourier", "-r", "a.wav", "-c", "b.wav", "-H"])
        zeroParameters).2.plotTimeDomainHiDiff = 1 ∧
    (commandline sampleConstants sampleLibc
      (args ["mdfourier", "-r", "a.wav", "-c", "b.wav", "-L", "4"]) zeroParameters).2.plotResX
        = 1920 ∧
    (commandline sampleConstants sampleLibc
      (args ["mdfourier", "-r", "a.wav", "-c", "b.wav", "-L", "4"]) zeroParameters).2.plotResY
        = 1080 := by
  decide

end MDFourier
